import Mathlib

/-!
finuchet-bot: conversation state machine and finance operations.

A shallow embedding of `internal/handlers/bot.go`, `internal/services/services.go`
and the `Repository` interface of `internal/repository/repository.go`.

* Go `float64` values are modelled by `Float64` (sign, 53-bit significand, binary
  exponent, with NaN and the infinities); `+`, `-`, `<=`, `strconv.ParseFloat` and
  the `%.2f` verb of `fmt.Sprintf` are modelled on that type.
* Go maps are modelled as functions into `Option`; reading a missing key yields
  the zero value of the element type.
* Calls on the Telegram client (`bot.Send`, `bot.Request`) and `log.Printf` are
  recorded, in order, in the `out` field of the handler state.
-/

namespace Finuchet

/-! ## float64 -/

/-- IEEE-754 binary64 values. `fin neg m e` denotes `(-1)^neg * m * 2^e`, kept in
canonical form: `m < 2^53`, `-1074 ≤ e ≤ 971`, and `e = -1074` whenever `m < 2^52`
(zero and the subnormals). -/
inductive Float64 where
  | nan
  | inf (neg : Bool)
  | fin (neg : Bool) (m : Nat) (e : Int)
  deriving DecidableEq, Repr

namespace Float64

/-- The zero value of `float64` (`+0`). -/
def zero : Float64 := fin false 0 (-1074)

/-- Number of binary digits of `n` (0 for 0); `fuel` bounds the recursion. -/
def bitLenAux : Nat → Nat → Nat
  | 0, _ => 0
  | fuel + 1, n => if n = 0 then 0 else 1 + bitLenAux fuel (n / 2)

/-- Number of binary digits of `n`. -/
def bitLen (n : Nat) : Nat := bitLenAux n n

/-- Numerator of `n / d * 2^(-E)` over the denominator `scaleDen d E`. -/
def scaleNum (n : Nat) (E : Int) : Nat := n * 2 ^ (-E).toNat

/-- Denominator matching `scaleNum`. -/
def scaleDen (d : Nat) (E : Int) : Nat := d * 2 ^ E.toNat

/-- Round the positive rational `n / d` to the nearest binary64 value, ties to even.
The second component is `true` when the magnitude overflows (the result is then
an infinity). -/
def roundRatio (neg : Bool) (n d : Nat) : Float64 × Bool :=
  if n = 0 then (fin neg 0 (-1074), false) else
  let E0 : Int := (bitLen n : Int) - (bitLen d : Int) - 53
  let E1 : Int := if scaleNum n E0 / scaleDen d E0 ≥ 2 ^ 53 then E0 + 1 else E0
  let E : Int := if E1 < -1074 then -1074 else E1
  let num := scaleNum n E
  let den := scaleDen d E
  let q := num / den
  let r := num % den
  let q1 := if 2 * r > den ∨ (2 * r = den ∧ q % 2 = 1) then q + 1 else q
  let (m, e) := if q1 = 2 ^ 53 then (2 ^ 52, E + 1) else (q1, E)
  if e > 971 then (inf neg, true) else (fin neg m e, false)

/-- Round the dyadic `m * 2^e` to binary64. -/
def roundDyadic (neg : Bool) (m : Nat) (e : Int) : Float64 :=
  (roundRatio neg (m * 2 ^ e.toNat) (2 ^ (-e).toNat)).1

/-- Go `x + y` on `float64` (round to nearest, ties to even). -/
def add : Float64 → Float64 → Float64
  | nan, _ => nan
  | _, nan => nan
  | inf a, inf b => if a = b then inf a else nan
  | inf a, fin _ _ _ => inf a
  | fin _ _ _, inf b => inf b
  | fin s1 m1 e1, fin s2 m2 e2 =>
    if m1 = 0 ∧ m2 = 0 then fin (s1 && s2) 0 (-1074)
    else if m1 = 0 then fin s2 m2 e2
    else if m2 = 0 then fin s1 m1 e1
    else
      let e0 : Int := if e1 ≤ e2 then e1 else e2
      let a : Int := (m1 * 2 ^ (e1 - e0).toNat : Nat)
      let b : Int := (m2 * 2 ^ (e2 - e0).toNat : Nat)
      let s : Int := (if s1 then -a else a) + (if s2 then -b else b)
      if s = 0 then fin false 0 (-1074)
      else roundDyadic (decide (s < 0)) s.natAbs e0

/-- Go unary `-x`. -/
def neg : Float64 → Float64
  | nan => nan
  | inf s => inf (!s)
  | fin s m e => fin (!s) m e

/-- Go `x - y` on `float64`. -/
def sub (x y : Float64) : Float64 := add x (neg y)

/-- Go `x <= y` on `float64`; false whenever an operand is NaN. -/
def le : Float64 → Float64 → Bool
  | nan, _ => false
  | _, nan => false
  | inf a, inf b => a || !b
  | inf a, fin _ _ _ => a
  | fin _ _ _, inf b => !b
  | fin s1 m1 e1, fin s2 m2 e2 =>
    if m1 = 0 then (m2 = 0 || !s2)
    else if m2 = 0 then s1
    else
      let e0 : Int := if e1 ≤ e2 then e1 else e2
      let a : Int := (m1 * 2 ^ (e1 - e0).toNat : Nat)
      let b : Int := (m2 * 2 ^ (e2 - e0).toNat : Nat)
      decide ((if s1 then -a else a) ≤ (if s2 then -b else b))

/-- Go `x < y` on `float64`; false whenever an operand is NaN. -/
def lt : Float64 → Float64 → Bool
  | nan, _ => false
  | _, nan => false
  | x, y => !(le y x)

/-- The `float64` nearest to the natural number `n`. -/
def ofNat (n : Nat) : Float64 := roundDyadic false n 0

/-- The two digits of `n % 100`, most significant first. -/
def twoDigits (n : Nat) : List Char :=
  [Nat.digitChar (n % 100 / 10), Nat.digitChar (n % 10)]

/-- The magnitude `m * 2^e` in hundredths, rounded to the nearest integer, ties to
even (the rounding `strconv` applies for a fixed number of decimals). -/
def hundredths (m : Nat) (e : Int) : Nat :=
  if m = 0 then 0 else
  let num := m * 100 * 2 ^ e.toNat
  let den := 2 ^ (-e).toNat
  let q := num / den
  let r := num % den
  if 2 * r > den ∨ (2 * r = den ∧ q % 2 = 1) then q + 1 else q

/-- Go `fmt.Sprintf("%.2f", x)`. -/
def fmt2 : Float64 → String
  | nan => "NaN"
  | inf false => "+Inf"
  | inf true => "-Inf"
  | fin s m e =>
    let h := hundredths m e
    (if s then "-" else "") ++ Nat.repr (h / 100) ++ "." ++ String.mk (twoDigits h)

end Float64

/-! ## Errors and the string functions of the standard library -/

/-- A non-nil Go `error`, identified by its message. -/
structure GoError where
  msg : String
  deriving DecidableEq, Repr

/-- The error `strconv.ErrSyntax`. -/
def ErrSyntax : GoError := ⟨"invalid syntax"⟩

/-- The error `strconv.ErrRange`. -/
def ErrRange : GoError := ⟨"value out of range"⟩

/-- Go `unicode.IsSpace`. -/
def isSpace (c : Char) : Bool :=
  let n := c.toNat
  n = 9 || n = 10 || n = 11 || n = 12 || n = 13 || n = 32 || n = 0x85 || n = 0xA0 ||
  n = 0x1680 || (0x2000 ≤ n && n ≤ 0x200A) || n = 0x2028 || n = 0x2029 ||
  n = 0x202F || n = 0x205F || n = 0x3000

/-- Go `strings.TrimSpace` on a list of characters. -/
def trimSpaceChars (cs : List Char) : List Char :=
  ((cs.dropWhile isSpace).reverse.dropWhile isSpace).reverse

/-- Go `strings.TrimSpace`. -/
def TrimSpace (s : String) : String := String.mk (trimSpaceChars s.data)

/-- Go `strings.ReplaceAll(s, old, "")` for a non-empty `old`, on lists of
characters: scanning from the left, every non-overlapping occurrence of `old` is
dropped. `fuel` bounds the recursion by the length of the input. -/
def removeAllAux (old : List Char) : Nat → List Char → List Char
  | 0, cs => cs
  | _ + 1, [] => []
  | fuel + 1, c :: cs =>
    if old.isPrefixOf (c :: cs) then removeAllAux old fuel ((c :: cs).drop old.length)
    else c :: removeAllAux old fuel cs

/-- Go `strings.ReplaceAll(text, "@" + userName, "")`. -/
def removeMention (text userName : String) : String :=
  String.mk (removeAllAux ('@' :: userName.data) text.data.length text.data)

/-! ## strconv.ParseFloat -/

/-- Go `lower(c)` of `strconv`: the byte with bit `0x20` set. -/
def lowerIs (c target : Char) : Bool :=
  c = target || (c.toNat + 32 = target.toNat && 'A' ≤ c && c ≤ 'Z')

/-- Decimal digit test. -/
def isDigit (c : Char) : Bool := '0' ≤ c && c ≤ '9'

/-- Hexadecimal letter test (`a`..`f`, either case). -/
def isHexLetter (c : Char) : Bool := ('a' ≤ c && c ≤ 'f') || ('A' ≤ c && c ≤ 'F')

/-- Value of a hexadecimal letter. -/
def hexLetterVal (c : Char) : Nat :=
  if 'a' ≤ c then c.toNat - 'a'.toNat + 10 else c.toNat - 'A'.toNat + 10

/-- Go `commonPrefixLenIgnoreCase(s, prefix)` for a lower-case `prefix`. -/
def commonPrefixLenIgnoreCase : List Char → List Char → Nat
  | c :: cs, p :: ps =>
    let c1 := if 'A' ≤ c ∧ c ≤ 'Z' then Char.ofNat (c.toNat + 32) else c
    if c1 = p then 1 + commonPrefixLenIgnoreCase cs ps else 0
  | _, _ => 0

/-- The part of `special` shared by the sign and the `i` cases: an infinity of
the given sign when `s` starts with `inf` or `infinity`. -/
def specialInf (neg : Bool) (nsign : Nat) (s : List Char) : Option (Float64 × Nat) :=
  let n0 := commonPrefixLenIgnoreCase s "infinity".data
  let n := if 3 < n0 ∧ n0 < 8 then 3 else n0
  if n = 3 ∨ n = 8 then some (Float64.inf neg, nsign + n) else none

/-- Go `strconv.special`: the value and the number of bytes consumed when `s`
starts with an infinity or NaN. -/
def special : List Char → Option (Float64 × Nat)
  | [] => none
  | c :: cs =>
    if c = '+' then specialInf false 1 cs
    else if c = '-' then specialInf true 1 cs
    else if c = 'i' ∨ c = 'I' then specialInf false 0 (c :: cs)
    else if c = 'n' ∨ c = 'N' then
      if commonPrefixLenIgnoreCase (c :: cs) "nan".data = 3 then some (Float64.nan, 3) else none
    else none

/-- Result of scanning the mantissa: the digits read as a number, the count of
digits after the leading zeros, the position of the point relative to them,
and the flags of `readFloat`. -/
structure Mant where
  mantissa : Nat := 0
  nd : Nat := 0
  dp : Int := 0
  sawdot : Bool := false
  sawdigits : Bool := false
  underscores : Bool := false

/-- The mantissa loop of `readFloat`; returns the state and the unread input. The
mantissa is kept exactly (Go keeps 19 digits and a truncation flag, and falls back
to an exact conversion when digits were dropped). -/
def readMant (hex : Bool) : Mant → List Char → Mant × List Char
  | st, [] => (st, [])
  | st, c :: cs =>
    if c = '_' then readMant hex { st with underscores := true } cs
    else if c = '.' then
      if st.sawdot then (st, c :: cs)
      else readMant hex { st with sawdot := true, dp := st.nd } cs
    else if isDigit c then
      if c = '0' ∧ st.nd = 0 then
        readMant hex { st with sawdigits := true, dp := st.dp - 1 } cs
      else
        readMant hex { st with sawdigits := true, nd := st.nd + 1,
                               mantissa := st.mantissa * (if hex then 16 else 10)
                                 + (c.toNat - '0'.toNat) } cs
    else if hex ∧ isHexLetter c then
      readMant hex { st with sawdigits := true, nd := st.nd + 1,
                             mantissa := st.mantissa * 16 + hexLetterVal c } cs
    else (st, c :: cs)

/-- The digit loop of the exponent in `readFloat` (the value stops growing once
it reaches 10000). -/
def readExpDigits : Nat → Bool → List Char → Nat × Bool × List Char
  | e, us, [] => (e, us, [])
  | e, us, c :: cs =>
    if c = '_' then readExpDigits e true cs
    else if isDigit c then
      readExpDigits (if e < 10000 then e * 10 + (c.toNat - '0'.toNat) else e) us cs
    else (e, us, c :: cs)

/-- Go `strconv.underscoreOK`, the loop over the number proper; `saw` is the
class of the last character seen. -/
def underscoreLoop (hex : Bool) : Char → List Char → Bool
  | saw, [] => saw ≠ '_'
  | saw, c :: cs =>
    if isDigit c ∨ (hex ∧ isHexLetter c) then underscoreLoop hex '0' cs
    else if c = '_' then
      if saw ≠ '0' then false else underscoreLoop hex '_' cs
    else if saw = '_' then false
    else underscoreLoop hex '!' cs

/-- Go `strconv.underscoreOK`. -/
def underscoreOK (s : List Char) : Bool :=
  let s1 := match s with
    | c :: cs => if c = '-' ∨ c = '+' then cs else s
    | [] => s
  match s1 with
  | c0 :: c1 :: rest =>
    if c0 = '0' ∧ (lowerIs c1 'b' ∨ lowerIs c1 'o' ∨ lowerIs c1 'x') then
      underscoreLoop (lowerIs c1 'x') '0' rest
    else underscoreLoop false '^' s1
  | _ => underscoreLoop false '^' s1

/-- Output of `readFloat`: the mantissa, the exponent (decimal, or binary for a
hexadecimal literal), the count of mantissa digits, the sign, the base and the
unread input. -/
structure ReadFloat where
  mantissa : Nat
  exp : Int
  nd : Nat
  neg : Bool
  hex : Bool
  rest : List Char

/-- The optional exponent of `readFloat`: the signed exponent value, whether an
underscore was seen, and the unread input; `none` when the exponent is malformed
or a hexadecimal literal has none. -/
def readExponent (hex : Bool) (s : List Char) : Option (Int × Bool × List Char) :=
  match s with
  | c :: cs =>
    if lowerIs c (if hex then 'p' else 'e') then
      match cs with
      | [] => none
      | d :: ds =>
        let (esign, r) : Int × List Char :=
          if d = '+' then (1, ds) else if d = '-' then (-1, ds) else (1, d :: ds)
        match r with
        | [] => none
        | x :: _ =>
          if isDigit x then
            let (e, us, rest) := readExpDigits 0 false r
            some ((e : Int) * esign, us, rest)
          else none
    else if hex then none else some (0, false, c :: cs)
  | [] => if hex then none else some (0, false, [])

/-- Go `strconv.readFloat`; `none` stands for `ok = false`. -/
def readFloat (s : List Char) : Option ReadFloat :=
  match s with
  | [] => none
  | c :: cs =>
    let (neg, s1) : Bool × List Char :=
      if c = '+' then (false, cs) else if c = '-' then (true, cs) else (false, c :: cs)
    let (hex, s2) : Bool × List Char :=
      match s1 with
      | c0 :: c1 :: c2 :: r => if c0 = '0' ∧ lowerIs c1 'x' then (true, c2 :: r) else (false, s1)
      | _ => (false, s1)
    let (st, s3) := readMant hex {} s2
    if !st.sawdigits then none else
    let dp0 : Int := if st.sawdot then st.dp else st.nd
    let dp1 : Int := if hex then dp0 * 4 else dp0
    let ndMant : Int := if hex then (st.nd : Int) * 4 else st.nd
    match readExponent hex s3 with
    | none => none
    | some (e, us, rest) =>
      let dp2 := dp1 + e
      let exp : Int := if st.mantissa ≠ 0 then dp2 - ndMant else 0
      if (st.underscores || us) && !underscoreOK (s.take (s.length - rest.length)) then none
      else some ⟨st.mantissa, exp, st.nd, neg, hex, rest⟩

/-- Conversion of the decimal `mantissa * 10^exp` (`nd` digits) to `float64`:
correctly rounded, with `ErrRange` and an infinity on overflow. -/
def decimalToFloat (neg : Bool) (mantissa nd : Nat) (exp : Int) : Float64 × Option GoError :=
  if mantissa = 0 then (Float64.fin neg 0 (-1074), none)
  else if (nd : Int) + exp > 310 then (Float64.inf neg, some ErrRange)
  else if (nd : Int) + exp < -330 then (Float64.fin neg 0 (-1074), none)
  else
    let r := if 0 ≤ exp then Float64.roundRatio neg (mantissa * 10 ^ exp.toNat) 1
             else Float64.roundRatio neg mantissa (10 ^ (-exp).toNat)
    (r.1, if r.2 then some ErrRange else none)

/-- Go `strconv.atofHex`: conversion of `mantissa * 2^exp` to `float64`. -/
def atofHex (neg : Bool) (mantissa : Nat) (exp : Int) : Float64 × Option GoError :=
  if mantissa = 0 then (Float64.fin neg 0 (-1074), none)
  else if (Float64.bitLen mantissa : Int) + exp > 1100 then (Float64.inf neg, some ErrRange)
  else if (Float64.bitLen mantissa : Int) + exp < -1200 then (Float64.fin neg 0 (-1074), none)
  else
    let r := Float64.roundRatio neg (mantissa * 2 ^ exp.toNat) (2 ^ (-exp).toNat)
    (r.1, if r.2 then some ErrRange else none)

/-- Go `strconv.ParseFloat(s, 64)`: the value and the error (`none` for `nil`). -/
def ParseFloat (s : String) : Float64 × Option GoError :=
  match special s.data with
  | some (v, n) => if n = s.data.length then (v, none) else (Float64.zero, some ErrSyntax)
  | none =>
    match readFloat s.data with
    | none => (Float64.zero, some ErrSyntax)
    | some r =>
      if r.rest ≠ [] then (Float64.zero, some ErrSyntax)
      else if r.hex then atofHex r.neg r.mantissa r.exp
      else decimalToFloat r.neg r.mantissa r.nd r.exp

/-! ## internal/models -/

/-- Go `models.User`. -/
structure User where
  ID : Int := 0
  ChatID : Int := 0
  deriving DecidableEq, Repr

/-- Go `models.Transaction`; `Type_` is the field `Type` ("income" or "expense") and
`CreatedAt` is the timestamp as a number. -/
structure Transaction where
  ID : Int := 0
  UserID : Int := 0
  Amount : Float64 := Float64.zero
  Category : String := ""
  Type_ : String := ""
  CreatedAt : Int := 0
  deriving DecidableEq, Repr

/-! ## internal/repository: the gateway interface -/

/-- Go interface `repository.Repository` over a store of type `σ`. A method
returning `error` yields the store after the call and the error (`none` for `nil`);
the two queries read the store and leave it as it is. -/
structure Repository (σ : Type) where
  GetUserByChatID : σ → Int → Option User × Option GoError
  CreateUser : σ → User → σ × Option GoError
  AddTransaction : σ → Transaction → σ × Option GoError
  DelData : σ → Int → σ × Option GoError
  GetTransactions : σ → Int → List Transaction × Option GoError

/-! ## internal/services -/

section Services

variable {σ : Type} (repo : Repository σ)

/-- Go `FinanceService.RegisterUser`. -/
def RegisterUser (s : σ) (chatID : Int) : σ × Option GoError :=
  let (user, err) := repo.GetUserByChatID s chatID
  if err.isSome || user.isSome then (s, err)
  else repo.CreateUser s { ChatID := chatID }

/-- Go `FinanceService.AddIncome`. -/
def AddIncome (s : σ) (chatID : Int) (amount : Float64) (category : String) :
    σ × Option GoError :=
  let (user, err) := repo.GetUserByChatID s chatID
  match err, user with
  | none, some u =>
    repo.AddTransaction s
      { UserID := u.ID, Amount := amount, Category := category, Type_ := "income" }
  | _, _ => (s, err)

/-- Go `FinanceService.AddExpense`. -/
def AddExpense (s : σ) (chatID : Int) (amount : Float64) (category : String) :
    σ × Option GoError :=
  let (user, err) := repo.GetUserByChatID s chatID
  match err, user with
  | none, some u =>
    repo.AddTransaction s
      { UserID := u.ID, Amount := amount, Category := category, Type_ := "expense" }
  | _, _ => (s, err)

/-- Go `FinanceService.ClearData`. -/
def ClearData (s : σ) (chatID : Int) : σ × Option GoError :=
  let (user, err) := repo.GetUserByChatID s chatID
  match err, user with
  | none, some u => repo.DelData s u.ID
  | _, _ => (s, err)

/-- One iteration of the loop of `GetReport` on the accumulators
`(income, expense)`. -/
def reportStep (acc : Float64 × Float64) (t : Transaction) : Float64 × Float64 :=
  if t.Type_ = "income" then (Float64.add acc.1 t.Amount, acc.2)
  else if t.Type_ = "expense" then (acc.1, Float64.add acc.2 t.Amount)
  else acc

/-- The text assembled at the end of `GetReport`. -/
def reportText (income expense : Float64) : String :=
  "Доходы: " ++ Float64.fmt2 income ++ "\n" ++
  "Расходы: " ++ Float64.fmt2 expense ++ "\n" ++
  "Баланс: " ++ Float64.fmt2 (Float64.sub income expense)

/-- Go `FinanceService.GetReport`. -/
def GetReport (s : σ) (chatID : Int) : String × Option GoError :=
  let (user, err) := repo.GetUserByChatID s chatID
  match err, user with
  | none, some u =>
    let (transactions, err2) := repo.GetTransactions s u.ID
    if err2.isSome then ("", err2)
    else
      let acc := transactions.foldl reportStep (Float64.zero, Float64.zero)
      (reportText acc.1 acc.2, none)
  | _, _ => ("", err)

end Services

/-! ## internal/handlers -/

/-- Go `tgbotapi.Chat`, the fields the handler reads. -/
structure Chat where
  ID : Int
  Type_ : String := "private"
  deriving DecidableEq, Repr

/-- Go `Chat.IsGroup`. -/
def Chat.IsGroup (c : Chat) : Bool := c.Type_ = "group"

/-- Go `Chat.IsSuperGroup`. -/
def Chat.IsSuperGroup (c : Chat) : Bool := c.Type_ = "supergroup"

/-- Go `tgbotapi.Message`, the fields the handler reads. -/
structure Message where
  Chat : Chat
  Text : String := ""
  deriving DecidableEq, Repr

/-- Go `tgbotapi.CallbackQuery`, the fields the handler reads; `Message` is the
message the pressed keyboard is attached to. -/
structure CallbackQuery where
  ID : String := ""
  Message : Message
  Data : String := ""
  deriving DecidableEq, Repr

/-- An inline keyboard button: its label and its callback data. -/
structure Button where
  text : String
  data : String
  deriving DecidableEq, Repr

/-- What the handler does to the outside world, in order: `bot.Send` of a message
with an optional inline keyboard, `bot.Request` of a callback answer, and a
`log.Printf` line. -/
inductive Outbound where
  | message (chatID : Int) (text : String) (keyboard : List (List Button))
  | callback (id : String)
  | log (line : String)
  deriving DecidableEq, Repr

/-- A call of a `FinanceService` method made by the handler, with its arguments. -/
inductive ServiceCall where
  | RegisterUser (chatID : Int)
  | AddIncome (chatID : Int) (amount : Float64) (category : String)
  | AddExpense (chatID : Int) (amount : Float64) (category : String)
  | ClearData (chatID : Int)
  | GetReport (chatID : Int)
  deriving DecidableEq, Repr

def StateNone : String := ""
def StateWaitingIncome : String := "waiting_income"
def StateWaitingExpense : String := "waiting_expense"
def StateIncomeCategory : String := "income_category"
def StateExpenseCategory : String := "expense_category"

/-- Go `BotHandler`. `store` is the state behind `service.repo`, `selfUserName` is
`bot.Self.UserName`, `out` lists the effects on the outside world so far and
`calls` the service calls made so far (both oldest first). -/
structure BotHandler (σ : Type) where
  store : σ
  selfUserName : String
  userStates : Int → Option String
  userAmounts : Int → Option Float64
  out : List Outbound
  calls : List ServiceCall

/-- Go `NewBotHandler`: both maps start empty. -/
def NewBotHandler {σ : Type} (selfUserName : String) (db : σ) : BotHandler σ :=
  { store := db, selfUserName := selfUserName,
    userStates := fun _ => none, userAmounts := fun _ => none, out := [], calls := [] }

namespace BotHandler

variable {σ : Type}

/-- The map read `h.userStates[chatID]`: the zero value `""` for a missing key. -/
def stateOf (h : BotHandler σ) (chatID : Int) : String := (h.userStates chatID).getD ""

/-- The map read `h.userAmounts[chatID]`: the zero value `0` for a missing key. -/
def amountOf (h : BotHandler σ) (chatID : Int) : Float64 :=
  (h.userAmounts chatID).getD Float64.zero

/-- The map write `h.userStates[chatID] = st`. -/
def setState (h : BotHandler σ) (chatID : Int) (st : String) : BotHandler σ :=
  { h with userStates := fun k => if k = chatID then some st else h.userStates k }

/-- The map write `h.userAmounts[chatID] = a`. -/
def setAmount (h : BotHandler σ) (chatID : Int) (a : Float64) : BotHandler σ :=
  { h with userAmounts := fun k => if k = chatID then some a else h.userAmounts k }

/-- Go `h.bot.Send(msg)` for a message with the given text and keyboard. -/
def send (h : BotHandler σ) (chatID : Int) (text : String)
    (keyboard : List (List Button)) : BotHandler σ :=
  { h with out := h.out ++ [Outbound.message chatID text keyboard] }

/-- Go `log.Printf(format, err)` with the verb `%v` at the end of `format`. -/
def logErr (h : BotHandler σ) (pre : String) (err : GoError) : BotHandler σ :=
  { h with out := h.out ++ [Outbound.log (pre ++ err.msg)] }

/-- Records a service call. -/
def call (h : BotHandler σ) (c : ServiceCall) : BotHandler σ :=
  { h with calls := h.calls ++ [c] }

/-- Go `BotHandler.resetState`. -/
def resetState (h : BotHandler σ) (chatID : Int) : BotHandler σ :=
  { h with userStates := fun k => if k = chatID then some StateNone else h.userStates k,
           userAmounts := fun k => if k = chatID then none else h.userAmounts k }

end BotHandler

/-- The keyboard of `sendMainMenu`. -/
def mainMenuKeyboard : List (List Button) :=
  [[⟨"Доход 📈", "income"⟩, ⟨"Расход 📉", "expense"⟩], [⟨"Отчет 📊", "report"⟩]]

/-- The keyboard of `sendOptionMenu`. -/
def optionMenuKeyboard : List (List Button) :=
  [[⟨"Редактирование 📝", "edit"⟩], [⟨"Выгрузка 📤", "export"⟩, ⟨"Очистка 🧹", "clear"⟩]]

/-- The keyboard of `sendIncomeCategories`. -/
def incomeKeyboard : List (List Button) :=
  [[⟨"З/п 💸", "salary"⟩, ⟨"Дебитор 🫴", "debit"⟩],
   [⟨"Премия 💰", "prize"⟩, ⟨"Подработка 🤑", "addinc"⟩],
   [⟨"Инвест 💹", "invest"⟩, ⟨"Вклад 🏦", "deposit"⟩]]

/-- The table `categories` of `sendExpenseCategories`: label and token. -/
def expenseCategories : List (String × String) :=
  [("Аптеки 🏥", "phar"), ("Авиабилеты 🛫", "avia"),
   ("Аксессуары 🕶️", "access"), ("Анализы 💉", "analys"),
   ("Аренда 🔑", "rent"), ("БытХим 🧹", "household"),
   ("Витамины 💊", "vitamin"), ("Госуслуги 🏢", "state"),
   ("Дом и ремонт 🛠️", "repair"), ("Ж/д билеты 🚂", "rail"),
   ("Животные 🐾", "animal"), ("ЖКХ 👾", "service"),
   ("Инвестиции 💹", "invest"), ("Интернет 🌐", "network"),
   ("Канцтовары 📝", "office"), ("Каршеринг 🏎️", "carsh"),
   ("Книги 📚", "book"), ("Красота 😻", "beauty"),
   ("Кредиты 💸", "Loan"), ("Медицина 🩺", "medic"),
   ("Моб. связь 📞", "mobile"), ("Наличные 🗞️", "cash"),
   ("Образование 🎓", "educ"), ("Одежда и обувь👟", "clothes"),
   ("Переводы 📤", "trans"), ("Подарки 🎁", "gift"),
   ("Подписки 🤳", "subscript"), ("Развлечения 🎢", "fun"),
   ("Еда 🍜", "eat"), ("Супермаркет 🛒", "mall"),
   ("Такси 🚕", "taxi"), ("Топливо ⛽️", "oil"),
   ("Транспорт 🚌", "transport"), ("Цветы 💐", "flowers"),
   ("Спорт 💪", "sport"), ("Остальное 🙉", "other")]

/-- The loop of `sendExpenseCategories`: one row per two consecutive entries (the
table has an even number of entries). -/
def pairRows : List (String × String) → List (List Button)
  | a :: b :: rest => [⟨a.1, a.2⟩, ⟨b.1, b.2⟩] :: pairRows rest
  | _ => []

/-- The keyboard of `sendExpenseCategories`. -/
def expenseKeyboard : List (List Button) := pairRows expenseCategories

/-- The callback data on the buttons of a keyboard. -/
def keyboardTokens (kb : List (List Button)) : List String :=
  kb.flatten.map Button.data

section Handlers

variable {σ : Type} (repo : Repository σ)

/-- Go `BotHandler.sendMainMenu`. -/
def sendMainMenu (h : BotHandler σ) (chatID : Int) : BotHandler σ :=
  h.send chatID "Выберите действие:" mainMenuKeyboard

/-- Go `BotHandler.sendOptionMenu`. -/
def sendOptionMenu (h : BotHandler σ) (chatID : Int) : BotHandler σ :=
  h.send chatID "Выберите действие:" optionMenuKeyboard

/-- Go `BotHandler.sendIncomeCategories`. -/
def sendIncomeCategories (h : BotHandler σ) (chatID : Int) : BotHandler σ :=
  h.send chatID "Выберите категорию дохода:" incomeKeyboard

/-- Go `BotHandler.sendExpenseCategories`. -/
def sendExpenseCategories (h : BotHandler σ) (chatID : Int) : BotHandler σ :=
  h.send chatID "Выберите категорию расхода:" expenseKeyboard

/-- Go `BotHandler.handleClearData`. -/
def handleClearData (h : BotHandler σ) (chatID : Int) : BotHandler σ :=
  let (s1, err) := ClearData repo h.store chatID
  let h1 := { h with store := s1 }.call (ServiceCall.ClearData chatID)
  match err with
  | some e =>
    (h1.send chatID "Ошибка при очистке данных." []).logErr "Ошибка при очистке данных: " e
  | none => h1.send chatID "Данные успешно очищены." []

/-- Go `BotHandler.addIncome`. -/
def addIncome (h : BotHandler σ) (chatID : Int) (category : String) : BotHandler σ :=
  let amount := h.amountOf chatID
  let (s1, err) := AddIncome repo h.store chatID amount category
  let h1 := { h with store := s1 }.call (ServiceCall.AddIncome chatID amount category)
  let h2 := match err with
    | some e =>
      (h1.send chatID "Ошибка при добавлении дохода." []).logErr "Ошибка добавления дохода: " e
    | none => h1.send chatID "Доход успешно добавлен." []
  sendMainMenu (h2.resetState chatID) chatID

/-- Go `BotHandler.addExpense`. -/
def addExpense (h : BotHandler σ) (chatID : Int) (category : String) : BotHandler σ :=
  let amount := h.amountOf chatID
  let (s1, err) := AddExpense repo h.store chatID amount category
  let h1 := { h with store := s1 }.call (ServiceCall.AddExpense chatID amount category)
  let h2 := match err with
    | some e =>
      (h1.send chatID "Ошибка при добавлении расхода." []).logErr "Ошибка добавления расхода: " e
    | none => h1.send chatID "Расход успешно добавлен." []
  sendMainMenu (h2.resetState chatID) chatID

/-- Go `BotHandler.handleReportCommand`. -/
def handleReportCommand (h : BotHandler σ) (chatID : Int) : BotHandler σ :=
  let (report, err) := GetReport repo h.store chatID
  let h1 := h.call (ServiceCall.GetReport chatID)
  match err with
  | some e =>
    (h1.send chatID "Ошибка при получении отчета." []).logErr "Ошибка при получении отчета: " e
  | none => h1.send chatID report []

/-- The text the first `switch` of `handleTransactionInput` works on: the message
text, with the bot mention removed and the result trimmed in a group chat. -/
def inputText (h : BotHandler σ) (msg : Message) : String :=
  if msg.Chat.IsGroup || msg.Chat.IsSuperGroup then
    TrimSpace (removeMention msg.Text h.selfUserName)
  else msg.Text

/-- The first `switch` of `handleTransactionInput` for the cases that do not
return: `/start`, `/menu`, `/options`, and no case at all. -/
def handleCommand (h : BotHandler σ) (chatID : Int) (text : String) : BotHandler σ :=
  if text = "/start" then
    let (s1, err) := RegisterUser repo h.store chatID
    let h1 := { h with store := s1 }.call (ServiceCall.RegisterUser chatID)
    match err with
    | some e =>
      (h1.send chatID "Ошибка при регистрации, попробуйте позже." []).logErr
        "Ошибка регистрации пользователя: " e
    | none => sendMainMenu h1 chatID
  else if text = "/menu" then sendMainMenu h chatID
  else if text = "/options" then sendOptionMenu h chatID
  else h

/-- Go `BotHandler.handleTransactionInput`. -/
def handleTransactionInput (h : BotHandler σ) (msg : Message) : BotHandler σ :=
  let chatID := msg.Chat.ID
  let text := inputText h msg
  if text = "/cancel" then
    sendMainMenu
      ((h.resetState chatID).send chatID "Действие отменено. Вы возвращены в главное меню." [])
      chatID
  else
    let h1 := handleCommand repo h chatID text
    let currentState := h1.stateOf chatID
    if currentState = StateWaitingIncome ∨ currentState = StateWaitingExpense then
      let (amount, err) := ParseFloat (TrimSpace text)
      if err.isSome || Float64.le amount Float64.zero then
        h1.send chatID "Укажите корректную сумму." []
      else
        let h2 := h1.setAmount chatID amount
        if currentState = StateWaitingIncome then
          sendIncomeCategories (h2.setState chatID StateIncomeCategory) chatID
        else
          sendExpenseCategories (h2.setState chatID StateExpenseCategory) chatID
    else h1

/-- The `switch` of `handleCallbackQuery`. -/
def dispatchCallback (h : BotHandler σ) (chatID : Int) (data : String) : BotHandler σ :=
  if data = "income" then
    (h.setState chatID StateWaitingIncome).send chatID "Введите сумму дохода:" []
  else if data = "expense" then
    (h.setState chatID StateWaitingExpense).send chatID "Введите сумму расхода:" []
  else if data = "report" then handleReportCommand repo h chatID
  else if data = "clear" then handleClearData repo h chatID
  else if data = "salary" ∨ data = "debit" ∨ data = "invest" ∨ data = "deposit" then
    addIncome repo h chatID data
  else if data = "shop" ∨ data = "service" ∨ data = "cafe" ∨ data = "link" ∨ data = "educ" then
    addExpense repo h chatID data
  else h

/-- Go `BotHandler.handleCallbackQuery`; `requestErr` is the error returned by
`h.bot.Request` for the callback answer (`none` for `nil`). -/
def handleCallbackQuery (h : BotHandler σ) (callbackQuery : CallbackQuery)
    (requestErr : Option GoError) : BotHandler σ :=
  let chatID := callbackQuery.Message.Chat.ID
  let data := callbackQuery.Data
  let h1 := dispatchCallback repo h chatID data
  let h2 := { h1 with out := h1.out ++ [Outbound.callback callbackQuery.ID] }
  match requestErr with
  | some e => h2.logErr "Ошибка при отправке CallbackQuery ответа: " e
  | none => h2

/-- An update taken from the channel in `BotHandler.Start`. -/
inductive Update where
  | callbackQuery (cq : CallbackQuery) (requestErr : Option GoError)
  | message (msg : Message)

/-- The body of the loop of `BotHandler.Start` for one update. -/
def handleUpdate (h : BotHandler σ) : Update → BotHandler σ
  | Update.callbackQuery cq requestErr => handleCallbackQuery repo h cq requestErr
  | Update.message msg => handleTransactionInput repo h msg

/-- The loop of `BotHandler.Start` over the updates received, oldest first. -/
def run (h : BotHandler σ) (updates : List Update) : BotHandler σ :=
  updates.foldl (handleUpdate repo) h

end Handlers

/-! ## An in-memory gateway -/

/-- The two tables behind `PostgresRepository`, with the next values of their
`id` sequences, and the error every statement fails with while the connection
is broken (`none` when it works). -/
structure Store where
  users : List User := []
  transactions : List Transaction := []
  nextUserID : Int := 1
  nextTransactionID : Int := 1
  fault : Option GoError := none
  deriving DecidableEq, Repr

/-- The gateway `PostgresRepository` over an in-memory `Store`: each method does
what its SQL statement does to the two tables. `users.chat_id` is taken to be
unique (the conflict target of `ON CONFLICT DO NOTHING`). The statement text of
`AddTransaction` in the source is a fragment followed by a single-row `INSERT`;
the single-row `INSERT` is what is modelled. -/
def memRepo : Repository Store where
  GetUserByChatID := fun s chatID =>
    match s.fault with
    | some e => (some {}, some e)
    | none => (s.users.find? (fun u => u.ChatID = chatID), none)
  CreateUser := fun s user =>
    match s.fault with
    | some e => (s, some e)
    | none =>
      if s.users.any (fun u => u.ChatID = user.ChatID) then (s, none)
      else ({ s with users := s.users ++ [{ ID := s.nextUserID, ChatID := user.ChatID }],
                     nextUserID := s.nextUserID + 1 }, none)
  AddTransaction := fun s t =>
    match s.fault with
    | some e => (s, some e)
    | none =>
      ({ s with transactions := s.transactions ++ [{ t with ID := s.nextTransactionID }],
                nextTransactionID := s.nextTransactionID + 1 }, none)
  DelData := fun s userID =>
    match s.fault with
    | some e => (s, some e)
    | none => ({ s with transactions := s.transactions.filter (fun t => t.UserID ≠ userID) }, none)
  GetTransactions := fun s userID =>
    match s.fault with
    | some e => ([], some e)
    | none => (s.transactions.filter (fun t => t.UserID = userID), none)

/-! ## Specification-side vocabulary -/

/-- The total of a kind as the specification words it: the amounts of the
transactions of that type, added up in the order stored, starting from 0. -/
def totalOf (ty : String) (txs : List Transaction) : Float64 :=
  ((txs.filter (fun t => t.Type_ = ty)).map Transaction.Amount).foldl Float64.add Float64.zero

/-- The messages sent with `bot.Send` among the effects `out`, oldest first (the
callback answers and the log lines are left out). -/
def messagesOf (out : List Outbound) : List Outbound :=
  out.filter (fun o => match o with
    | Outbound.message _ _ _ => true
    | _ => false)

/-- The rows of the user `userID` among `txs`. -/
def rowsOf (userID : Int) (txs : List Transaction) : List Transaction :=
  txs.filter (fun t => t.UserID = userID)

/-- The amount a message is accepted with as an amount entry of chat `c`, if it
is one: the message belongs to `c`, the chat is in a waiting stage, the text
read is not `/cancel`, and its trimmed form parses without error to an amount
that does not satisfy `amount <= 0`. -/
def acceptedAmount {σ : Type} (h : BotHandler σ) (c : Int) : Update → Option Float64
  | Update.callbackQuery _ _ => none
  | Update.message msg =>
    if msg.Chat.ID = c ∧ inputText h msg ≠ "/cancel" ∧
        (h.stateOf c = StateWaitingIncome ∨ h.stateOf c = StateWaitingExpense) then
      if (ParseFloat (TrimSpace (inputText h msg))).2.isSome ||
          Float64.le (ParseFloat (TrimSpace (inputText h msg))).1 Float64.zero then none
      else some (ParseFloat (TrimSpace (inputText h msg))).1
    else none

/-- The amount of the most recent accepted amount entry of chat `c` while the
handler, starting in `h`, works through `updates`; `none` when there is none. -/
def lastAccepted {σ : Type} (repo : Repository σ) (c : Int) :
    BotHandler σ → List Update → Option Float64
  | _, [] => none
  | h, u :: us =>
    match lastAccepted repo c (handleUpdate repo h u) us with
    | some a => some a
    | none => acceptedAmount h c u

/-- A step of the stage of one chat as the specification words it: the stage stays
the same, is reset to none, or advances one step along
none, waiting_kind, kind_category, none. -/
def linearStep (s s1 : String) : Bool :=
  s1 = s || s1 = StateNone ||
  (s = StateNone && (s1 = StateWaitingIncome || s1 = StateWaitingExpense)) ||
  (s = StateWaitingIncome && s1 = StateIncomeCategory) ||
  (s = StateWaitingExpense && s1 = StateExpenseCategory)

/-- The update is the button with callback data `data` pressed in chat `c`. -/
def isPress (u : Update) (c : Int) (data : String) : Prop :=
  match u with
  | Update.callbackQuery cq _ => cq.Message.Chat.ID = c ∧ cq.Data = data
  | Update.message _ => False

/-- The chat an update is addressed to. -/
def chatOf : Update → Int
  | Update.callbackQuery cq _ => cq.Message.Chat.ID
  | Update.message msg => msg.Chat.ID

/-- The transaction is of a type the report counts: exactly "income" or
"expense". -/
def counted (t : Transaction) : Bool := t.Type_ = "income" || t.Type_ = "expense"

/-! ## Stores and handlers used as concrete inputs -/

/-- A store with one registered user, for chat 7. -/
def sampleStore : Store := { users := [{ ID := 1, ChatID := 7 }], nextUserID := 2 }

/-- A fresh handler over `sampleStore`. -/
def sampleHandler : BotHandler Store := NewBotHandler "finbot" sampleStore

/-- A button press with the given callback data in the private chat 7. -/
def press (data : String) : Update :=
  Update.callbackQuery { ID := "q", Message := { Chat := { ID := 7 } }, Data := data } none

/-- A text message in the private chat 7. -/
def say (text : String) : Update := Update.message { Chat := { ID := 7 }, Text := text }

/-- The store `sampleStore` behind a broken connection: every statement fails. -/
def brokenStore : Store := { sampleStore with fault := some ⟨"connection refused"⟩ }

/-- A fresh handler over `brokenStore`. -/
def brokenHandler : BotHandler Store := NewBotHandler "finbot" brokenStore

/-- A store with two users (chats 7 and 8) and rows of both. -/
def twoUserStore : Store :=
  { users := [{ ID := 1, ChatID := 7 }, { ID := 2, ChatID := 8 }],
    transactions :=
      [{ ID := 1, UserID := 1, Amount := Float64.ofNat 100, Category := "salary",
         Type_ := "income" },
       { ID := 2, UserID := 2, Amount := Float64.ofNat 30, Category := "educ",
         Type_ := "expense" },
       { ID := 3, UserID := 1, Amount := Float64.ofNat 40, Category := "service",
         Type_ := "expense" }],
    nextUserID := 3, nextTransactionID := 4 }

/-- A text message in the private chat `c`. -/
def sayIn (c : Int) (text : String) : Update := Update.message { Chat := { ID := c }, Text := text }

/-- A button press with the given callback data in the private chat `c`. -/
def pressIn (c : Int) (data : String) : Update :=
  Update.callbackQuery { ID := "q", Message := { Chat := { ID := c } }, Data := data } none

/-- The store `twoUserStore` with two more rows of user 1, of the types "transfer"
and "Income", which are neither "income" nor "expense". -/
def mixedStore : Store :=
  { twoUserStore with
    transactions :=
      { ID := 4, UserID := 1, Amount := Float64.ofNat 500, Category := "other",
        Type_ := "transfer" } ::
      twoUserStore.transactions ++
      [{ ID := 5, UserID := 1, Amount := Float64.ofNat 7, Category := "salary",
         Type_ := "Income" }],
    nextTransactionID := 6 }

/-- A store whose user 1 (chat 7) has two incomes of 1.7976931348623157e308, the
largest finite `float64` (`(2^53 - 1) * 2^971`). -/
def hugeStore : Store :=
  { users := [{ ID := 1, ChatID := 7 }],
    transactions :=
      [{ ID := 1, UserID := 1, Amount := Float64.fin false 9007199254740991 971,
         Category := "salary", Type_ := "income" },
       { ID := 2, UserID := 1, Amount := Float64.fin false 9007199254740991 971,
         Category := "deposit", Type_ := "income" }],
    nextUserID := 2, nextTransactionID := 3 }

/-! ## Basic facts -/

theorem Float64.le_zero_of_pos (a : Float64) (h : Float64.lt Float64.zero a = true) :
    Float64.le a Float64.zero = false := by
  cases a with
  | nan => simp [Float64.lt, Float64.zero] at h
  | inf s => simpa [Float64.lt, Float64.zero] using h
  | fin s m e => simpa [Float64.lt, Float64.zero] using h

section HandlerFacts

variable {σ : Type} (repo : Repository σ)

theorem handleCommand_other (h : BotHandler σ) (chatID : Int) (text : String)
    (h1 : text ≠ "/start") (h2 : text ≠ "/menu") (h3 : text ≠ "/options") :
    handleCommand repo h chatID text = h := by
  simp [handleCommand, h1, h2, h3]

end HandlerFacts

/-! ## The claims -/

/-- C1. A chat is in stage `waiting_income` (resp. `waiting_expense`); the text the
handler reads is none of the commands and, trimmed, parses without error to an
amount `a > 0`. Then `handleTransactionInput` sets the stage of the chat to
`income_category` (resp. `expense_category`), stores `a` as its pending amount, and
emits exactly the income (resp. expense) category menu; it calls no service. -/
theorem amount_entry_accepted {σ : Type} (repo : Repository σ) (h : BotHandler σ)
    (msg : Message) (a : Float64)
    (hcmd : inputText h msg ≠ "/start" ∧ inputText h msg ≠ "/menu" ∧
      inputText h msg ≠ "/options" ∧ inputText h msg ≠ "/cancel")
    (hparse : ParseFloat (TrimSpace (inputText h msg)) = (a, none))
    (hpos : Float64.lt Float64.zero a = true) :
    (h.stateOf msg.Chat.ID = StateWaitingIncome →
      (handleTransactionInput repo h msg).userStates msg.Chat.ID = some StateIncomeCategory ∧
      (handleTransactionInput repo h msg).userAmounts msg.Chat.ID = some a ∧
      (handleTransactionInput repo h msg).out =
        h.out ++ [Outbound.message msg.Chat.ID "Выберите категорию дохода:" incomeKeyboard] ∧
      (handleTransactionInput repo h msg).store = h.store ∧
      (handleTransactionInput repo h msg).calls = h.calls) ∧
    (h.stateOf msg.Chat.ID = StateWaitingExpense →
      (handleTransactionInput repo h msg).userStates msg.Chat.ID = some StateExpenseCategory ∧
      (handleTransactionInput repo h msg).userAmounts msg.Chat.ID = some a ∧
      (handleTransactionInput repo h msg).out =
        h.out ++ [Outbound.message msg.Chat.ID "Выберите категорию расхода:" expenseKeyboard] ∧
      (handleTransactionInput repo h msg).store = h.store ∧
      (handleTransactionInput repo h msg).calls = h.calls) := by
  obtain ⟨c1, c2, c3, c4⟩ := hcmd
  have hle := Float64.le_zero_of_pos a hpos
  have hne : StateWaitingExpense ≠ StateWaitingIncome := by decide
  constructor
  · intro hst
    simp [handleTransactionInput, c4, handleCommand_other repo h _ _ c1 c2 c3, hst, hparse, hle,
      sendIncomeCategories, BotHandler.send, BotHandler.setState, BotHandler.setAmount]
  · intro hst
    simp [handleTransactionInput, c4, handleCommand_other repo h _ _ c1 c2 c3, hst, hparse, hle,
      hne, sendExpenseCategories, BotHandler.send, BotHandler.setState, BotHandler.setAmount]

/-- Witness for C1: the text " 12.5 " sent to chat 7 after the "income" button. -/
theorem amount_entry_accepted_witness :
    (run memRepo sampleHandler [press "income"]).stateOf 7 = StateWaitingIncome ∧
    ParseFloat (TrimSpace " 12.5 ") = (Float64.fin false 7036874417766400 (-49), none) ∧
    Float64.lt Float64.zero (Float64.fin false 7036874417766400 (-49)) = true ∧
    (handleTransactionInput memRepo (run memRepo sampleHandler [press "income"])
      { Chat := { ID := 7 }, Text := " 12.5 " }).userStates 7 = some StateIncomeCategory ∧
    (handleTransactionInput memRepo (run memRepo sampleHandler [press "income"])
      { Chat := { ID := 7 }, Text := " 12.5 " }).userAmounts 7
        = some (Float64.fin false 7036874417766400 (-49)) :=
  have w := (amount_entry_accepted memRepo (run memRepo sampleHandler [press "income"])
      { Chat := { ID := 7 }, Text := " 12.5 " } (Float64.fin false 7036874417766400 (-49))
      (by decide) (by decide) (by decide)).1 (by decide)
  ⟨by decide, by decide, by decide, w.1, w.2.1⟩

/-- Supporting fact for C2: in a waiting stage, a text other than `/cancel` whose
trimmed form the parser rejects, or that parses to an amount `<= 0`, leaves both
maps as they were, and the last message emitted is the re-prompt. -/
theorem amount_entry_rejected {σ : Type} (repo : Repository σ) (h : BotHandler σ)
    (msg : Message)
    (hstage : h.stateOf msg.Chat.ID = StateWaitingIncome ∨
      h.stateOf msg.Chat.ID = StateWaitingExpense)
    (hcancel : inputText h msg ≠ "/cancel")
    (hbad : (ParseFloat (TrimSpace (inputText h msg))).2.isSome = true ∨
      Float64.le (ParseFloat (TrimSpace (inputText h msg))).1 Float64.zero = true) :
    (handleTransactionInput repo h msg).userStates = h.userStates ∧
    (handleTransactionInput repo h msg).userAmounts = h.userAmounts ∧
    (handleTransactionInput repo h msg).out.getLast? =
      some (Outbound.message msg.Chat.ID "Укажите корректную сумму." []) := by
  have hcmd : (handleCommand repo h msg.Chat.ID (inputText h msg)).userStates = h.userStates ∧
      (handleCommand repo h msg.Chat.ID (inputText h msg)).userAmounts = h.userAmounts := by
    unfold handleCommand
    split_ifs
    · cases hr : RegisterUser repo h.store msg.Chat.ID with
      | mk s1 err => cases err <;> simp [sendMainMenu, BotHandler.send, BotHandler.logErr,
          BotHandler.call]
    · simp [sendMainMenu, BotHandler.send]
    · simp [sendOptionMenu, BotHandler.send]
    · simp
  have hst : (handleCommand repo h msg.Chat.ID (inputText h msg)).stateOf msg.Chat.ID
      = h.stateOf msg.Chat.ID := by
    simp [BotHandler.stateOf, hcmd.1]
  have hbad2 : ((ParseFloat (TrimSpace (inputText h msg))).2.isSome ||
      Float64.le (ParseFloat (TrimSpace (inputText h msg))).1 Float64.zero) = true := by
    rcases hbad with hb | hb <;> simp [hb]
  simp only [handleTransactionInput, hcancel, if_false, hst, hstage, if_true, hbad2]
  simp [BotHandler.send, hcmd.1, hcmd.2]

/-- C2, at the failing input. Chat 7 is in stage `waiting_income` and sends the
text "NaN": the parser returns NaN without error, NaN is not `> 0`, and yet the
handler stores NaN as the pending amount, moves the chat to `income_category` and
emits the category menu instead of the re-prompt. -/
theorem nan_amount_moves_to_category :
    (run memRepo sampleHandler [press "income"]).stateOf 7 = StateWaitingIncome ∧
    ParseFloat (TrimSpace "NaN") = (Float64.nan, none) ∧
    Float64.lt Float64.zero Float64.nan = false ∧
    (run memRepo sampleHandler [press "income", say "NaN"]).userStates 7
      = some StateIncomeCategory ∧
    (run memRepo sampleHandler [press "income", say "NaN"]).userAmounts 7
      = some Float64.nan ∧
    (run memRepo sampleHandler [press "income", say "NaN"]).out.getLast?
      = some (Outbound.message 7 "Выберите категорию дохода:" incomeKeyboard) := by
  decide

/-- Supporting fact for C3: `addIncome` (resp. `addExpense`) calls `AddIncome`
(resp. `AddExpense`) once, with the chat, the pending amount read from the map and
the category, and leaves the chat in stage none with no pending amount. -/
theorem add_calls_and_resets {σ : Type} (repo : Repository σ) (h : BotHandler σ)
    (chatID : Int) (category : String) :
    ((addIncome repo h chatID category).calls
        = h.calls ++ [ServiceCall.AddIncome chatID (h.amountOf chatID) category] ∧
      (addIncome repo h chatID category).store
        = (AddIncome repo h.store chatID (h.amountOf chatID) category).1 ∧
      (addIncome repo h chatID category).userStates chatID = some StateNone ∧
      (addIncome repo h chatID category).userAmounts chatID = none) ∧
    ((addExpense repo h chatID category).calls
        = h.calls ++ [ServiceCall.AddExpense chatID (h.amountOf chatID) category] ∧
      (addExpense repo h chatID category).store
        = (AddExpense repo h.store chatID (h.amountOf chatID) category).1 ∧
      (addExpense repo h chatID category).userStates chatID = some StateNone ∧
      (addExpense repo h chatID category).userAmounts chatID = none) := by
  constructor
  · cases hr : AddIncome repo h.store chatID (h.amountOf chatID) category with
    | mk s1 err =>
      cases err <;>
        simp [addIncome, hr, sendMainMenu, BotHandler.send, BotHandler.logErr, BotHandler.call,
          BotHandler.resetState]
  · cases hr : AddExpense repo h.store chatID (h.amountOf chatID) category with
    | mk s1 err =>
      cases err <;>
        simp [addExpense, hr, sendMainMenu, BotHandler.send, BotHandler.logErr, BotHandler.call,
          BotHandler.resetState]

/-- C3, at the failing input. Chat 7 is in stage `expense_category` with pending
amount 50 and presses "invest", a token of the expense menu: the handler calls
`AddIncome` (not `AddExpense`) and the row stored has type "income". -/
theorem expense_stage_invest_adds_income :
    "invest" ∈ keyboardTokens expenseKeyboard ∧
    (run memRepo sampleHandler [press "expense", say "50"]).stateOf 7
      = StateExpenseCategory ∧
    (run memRepo sampleHandler [press "expense", say "50"]).userAmounts 7
      = some (Float64.ofNat 50) ∧
    (run memRepo sampleHandler [press "expense", say "50", press "invest"]).calls
      = [ServiceCall.AddIncome 7 (Float64.ofNat 50) "invest"] ∧
    (run memRepo sampleHandler [press "expense", say "50", press "invest"]).store.transactions
      = [{ ID := 1, UserID := 1, Amount := Float64.ofNat 50, Category := "invest",
           Type_ := "income" }] := by
  decide

/-- C4, at the failing input. Chat 7 is in stage `income_category` and presses
"prize", a token of the income menu: no service is called, no row is stored and
the chat stays in `income_category`. The same holds for "phar" of the expense
menu in stage `expense_category`. -/
theorem offered_token_ignored :
    "prize" ∈ keyboardTokens incomeKeyboard ∧
    (run memRepo sampleHandler [press "income", say "100"]).stateOf 7
      = StateIncomeCategory ∧
    (run memRepo sampleHandler [press "income", say "100", press "prize"]).calls = [] ∧
    (run memRepo sampleHandler [press "income", say "100", press "prize"]).store.transactions
      = [] ∧
    (run memRepo sampleHandler [press "income", say "100", press "prize"]).stateOf 7
      = StateIncomeCategory ∧
    "phar" ∈ keyboardTokens expenseKeyboard ∧
    (run memRepo sampleHandler [press "expense", say "100", press "phar"]).calls = [] ∧
    (run memRepo sampleHandler [press "expense", say "100", press "phar"]).stateOf 7
      = StateExpenseCategory := by
  decide

/-- Supporting fact for C4: of the six tokens of the income menu four reach a
service call, and of the thirty-six of the expense menu three do. -/
theorem offered_tokens_dispatched :
    (keyboardTokens incomeKeyboard).filter
        (fun t => decide ((dispatchCallback memRepo sampleHandler 7 t).calls ≠ []))
      = ["salary", "debit", "invest", "deposit"] ∧
    (keyboardTokens expenseKeyboard).length = 36 ∧
    (keyboardTokens expenseKeyboard).filter
        (fun t => decide ((dispatchCallback memRepo sampleHandler 7 t).calls ≠ []))
      = ["service", "invest", "educ"] := by
  decide

/-- The text `/cancel` is read as `/cancel` in every kind of chat, whatever the
name of the bot. -/
theorem inputText_cancel {σ : Type} (h : BotHandler σ) (msg : Message)
    (ht : msg.Text = "/cancel") : inputText h msg = "/cancel" := by
  unfold inputText
  split_ifs
  · rw [ht]
    have hr : removeMention "/cancel" h.selfUserName = "/cancel" := by
      simp [removeMention, removeAllAux, List.isPrefixOf]
    rw [hr]
    decide
  · exact ht

/-- C5. For every handler state (any stage and any pending amount of the chat) and
every message whose text is `/cancel`, `handleTransactionInput` leaves the chat in
stage none with no pending amount and emits exactly the cancellation notice
followed by the main menu; nothing else is emitted (no re-prompt: the text is not
taken as an amount), no service is called and the store is untouched. -/
theorem cancel_resets {σ : Type} (repo : Repository σ) (h : BotHandler σ) (msg : Message)
    (ht : msg.Text = "/cancel") :
    (handleTransactionInput repo h msg).userStates msg.Chat.ID = some StateNone ∧
    (handleTransactionInput repo h msg).stateOf msg.Chat.ID = StateNone ∧
    (handleTransactionInput repo h msg).userAmounts msg.Chat.ID = none ∧
    (handleTransactionInput repo h msg).out = h.out ++
      [Outbound.message msg.Chat.ID "Действие отменено. Вы возвращены в главное меню." [],
       Outbound.message msg.Chat.ID "Выберите действие:" mainMenuKeyboard] ∧
    (handleTransactionInput repo h msg).calls = h.calls ∧
    (handleTransactionInput repo h msg).store = h.store := by
  simp [handleTransactionInput, inputText_cancel h msg ht, sendMainMenu, BotHandler.send,
    BotHandler.resetState, BotHandler.stateOf]

/-- Witness for C5: `/cancel` in chat 7 while an amount of 12.5 is pending in stage
`income_category`. -/
theorem cancel_resets_witness :
    (run memRepo sampleHandler [press "income", say "12.5"]).userStates 7
      = some StateIncomeCategory ∧
    (run memRepo sampleHandler [press "income", say "12.5"]).userAmounts 7
      = some (Float64.fin false 7036874417766400 (-49)) ∧
    (handleTransactionInput memRepo (run memRepo sampleHandler [press "income", say "12.5"])
      { Chat := { ID := 7 }, Text := "/cancel" }).stateOf 7 = StateNone ∧
    (handleTransactionInput memRepo (run memRepo sampleHandler [press "income", say "12.5"])
      { Chat := { ID := 7 }, Text := "/cancel" }).userAmounts 7 = none :=
  have w := cancel_resets memRepo (run memRepo sampleHandler [press "income", say "12.5"])
      { Chat := { ID := 7 }, Text := "/cancel" } rfl
  ⟨by decide, by decide, w.2.1, w.2.2.1⟩

/-- C6, at the failing input. From the empty maps, the single button press "salary"
in chat 7 makes `addIncome` call `AddIncome` with the amount 0, which is not `> 0`,
and a row with amount 0 is stored. -/
theorem category_press_without_amount :
    (run memRepo sampleHandler [press "salary"]).calls
      = [ServiceCall.AddIncome 7 Float64.zero "salary"] ∧
    Float64.lt Float64.zero Float64.zero = false ∧
    (run memRepo sampleHandler [press "salary"]).store.transactions
      = [{ ID := 1, UserID := 1, Amount := Float64.zero, Category := "salary",
           Type_ := "income" }] := by
  decide

/-- Supporting fact for C7 and C8: when the lookup returns no user and no error,
`AddIncome`, `AddExpense` and `ClearData` return no error and leave the store as
it is, and `GetReport` returns the empty text and no error. -/
theorem no_user_returns_nil {σ : Type} (repo : Repository σ) (s : σ) (chatID : Int)
    (amount : Float64) (category : String)
    (hu : repo.GetUserByChatID s chatID = (none, none)) :
    AddIncome repo s chatID amount category = (s, none) ∧
    AddExpense repo s chatID amount category = (s, none) ∧
    ClearData repo s chatID = (s, none) ∧
    GetReport repo s chatID = ("", none) := by
  simp [AddIncome, AddExpense, ClearData, GetReport, hu]

/-- C7, at the failing input. Chat 5 has no user in the store; `AddIncome` and
`AddExpense` for it append no row, and return no error at all. -/
theorem add_without_user_returns_nil :
    memRepo.GetUserByChatID sampleStore 5 = (none, none) ∧
    AddIncome memRepo sampleStore 5 (Float64.ofNat 10) "salary" = (sampleStore, none) ∧
    AddExpense memRepo sampleStore 5 (Float64.ofNat 10) "educ" = (sampleStore, none) := by
  decide

/-- C8, at the failing input. Chat 5 has no user in the store; `GetReport` for it
returns the empty text and no error. -/
theorem report_without_user_returns_nil :
    memRepo.GetUserByChatID sampleStore 5 = (none, none) ∧
    GetReport memRepo sampleStore 5 = ("", none) := by
  decide

/-! ### The report -/

/-- The loop of `GetReport` computes, in one pass, the two sums that filtering by
type and adding up would give. -/
theorem foldl_reportStep (txs : List Transaction) (i e : Float64) :
    txs.foldl reportStep (i, e) =
      (((txs.filter (fun t => t.Type_ = "income")).map Transaction.Amount).foldl Float64.add i,
       ((txs.filter (fun t => t.Type_ = "expense")).map Transaction.Amount).foldl Float64.add e) := by
  induction txs generalizing i e with
  | nil => rfl
  | cons t ts ih =>
    by_cases hi : t.Type_ = "income"
    · simp [reportStep, hi, ih]
    · by_cases he : t.Type_ = "expense"
      · simp [reportStep, hi, he, ih]
      · simp [reportStep, hi, he, ih]

/-- The verb `%.2f` prints a finite value with a point followed by exactly two
decimal digits at the end. -/
theorem fmt2_fin_two_decimals (s : Bool) (m : Nat) (e : Int) :
    ∃ pre d1 d2, (Float64.fmt2 (Float64.fin s m e)).data = pre ++ ['.', d1, d2] ∧
      isDigit d1 = true ∧ isDigit d2 = true := by
  have hd : ∀ n, n < 10 → isDigit (Nat.digitChar n) = true := by
    intro n hn
    interval_cases n <;> decide
  refine ⟨((if s then "-" else "") ++ Nat.repr (Float64.hundredths m e / 100)).data,
    Nat.digitChar (Float64.hundredths m e % 100 / 10),
    Nat.digitChar (Float64.hundredths m e % 10), ?_, hd _ (by omega), hd _ (by omega)⟩
  simp [Float64.fmt2, Float64.twoDigits, String.data_append]

/-- The decimal digits produced by `Nat.toDigitsCore` in base 10 are digits. -/
theorem toDigitsCore_isDigit (fuel n : Nat) (ds : List Char)
    (hds : ∀ c ∈ ds, isDigit c = true) :
    ∀ c ∈ Nat.toDigitsCore 10 fuel n ds, isDigit c = true := by
  have hd : ∀ k, k < 10 → isDigit (Nat.digitChar k) = true := by
    intro k hk
    interval_cases k <;> decide
  induction fuel generalizing n ds with
  | zero => simpa [Nat.toDigitsCore] using hds
  | succ f ih =>
    have hcons : ∀ c ∈ Nat.digitChar (n % 10) :: ds, isDigit c = true := by
      intro c hc
      rcases List.mem_cons.mp hc with h1 | h1
      · rw [h1]; exact hd _ (Nat.mod_lt _ (by decide))
      · exact hds c h1
    unfold Nat.toDigitsCore
    simp only
    split_ifs
    · exact hcons
    · exact ih _ _ hcons

/-- `Nat.toDigitsCore` only adds characters in front of the ones it is given. -/
theorem toDigitsCore_ne_nil (fuel n : Nat) (ds : List Char) (hds : ds ≠ []) :
    Nat.toDigitsCore 10 fuel n ds ≠ [] := by
  induction fuel generalizing n ds with
  | zero => simpa [Nat.toDigitsCore] using hds
  | succ f ih =>
    unfold Nat.toDigitsCore
    simp only
    split_ifs
    · exact List.cons_ne_nil _ _
    · exact ih _ _ (List.cons_ne_nil _ _)

/-- The decimal representation of a natural number is a non-empty string of
digits. -/
theorem repr_digits (n : Nat) :
    (Nat.repr n).data ≠ [] ∧ ∀ c ∈ (Nat.repr n).data, isDigit c = true := by
  simp only [Nat.repr, Nat.toDigits, List.asString]
  constructor
  · unfold Nat.toDigitsCore
    simp only
    split_ifs
    · exact List.cons_ne_nil _ _
    · exact toDigitsCore_ne_nil _ _ _ (List.cons_ne_nil _ _)
  · exact toDigitsCore_isDigit _ _ [] (by simp)

/-- What the verb `%.2f` prints: "NaN", "+Inf" or "-Inf" for the three values
that are not finite, and for a finite value an optional minus sign, one or more
decimal digits, a point and exactly two decimal digits. -/
theorem fmt2_shape (x : Float64) :
    (x = Float64.nan ∧ Float64.fmt2 x = "NaN") ∨
    (x = Float64.inf false ∧ Float64.fmt2 x = "+Inf") ∨
    (x = Float64.inf true ∧ Float64.fmt2 x = "-Inf") ∨
    (∃ sg m e digits d1 d2, x = Float64.fin sg m e ∧
      (Float64.fmt2 x).data = (if sg then ['-'] else []) ++ digits ++ ['.', d1, d2] ∧
      digits ≠ [] ∧ (∀ c ∈ digits, isDigit c = true) ∧
      isDigit d1 = true ∧ isDigit d2 = true) := by
  have hd : ∀ n, n < 10 → isDigit (Nat.digitChar n) = true := by
    intro n hn
    interval_cases n <;> decide
  cases x with
  | nan => left; exact ⟨rfl, rfl⟩
  | inf sg =>
    cases sg
    · right; left; exact ⟨rfl, rfl⟩
    · right; right; left; exact ⟨rfl, rfl⟩
  | fin sg m e =>
    right; right; right
    refine ⟨sg, m, e, (Nat.repr (Float64.hundredths m e / 100)).data,
      Nat.digitChar (Float64.hundredths m e % 100 / 10),
      Nat.digitChar (Float64.hundredths m e % 10), rfl, ?_,
      (repr_digits _).1, (repr_digits _).2, hd _ (by omega), hd _ (by omega)⟩
    cases sg <;> simp [Float64.fmt2, Float64.twoDigits, String.data_append]

set_option exponentiation.threshold 4000 in
set_option maxRecDepth 100000 in
/-- C9, as stated, fails: user 1 of `hugeStore` has two incomes of
1.7976931348623157e308; their `float64` sum overflows, and `GetReport` prints the
income total and the balance as "+Inf", which is not a number with two decimals. -/
theorem report_prints_inf_on_overflow :
    memRepo.GetUserByChatID hugeStore 7 = (some { ID := 1, ChatID := 7 }, none) ∧
    (memRepo.GetTransactions hugeStore 1).1.map Transaction.Amount
      = [Float64.fin false 9007199254740991 971, Float64.fin false 9007199254740991 971] ∧
    GetReport memRepo hugeStore 7 = ("Доходы: +Inf\nРасходы: 0.00\nБаланс: +Inf", none) ∧
    ¬ ∃ pre d1 d2, (Float64.fmt2 (totalOf "income" hugeStore.transactions)).data
        = pre ++ ['.', d1, d2] := by
  have hrep : GetReport memRepo hugeStore 7
      = ("Доходы: +Inf\nРасходы: 0.00\nБаланс: +Inf", none) := by decide
  have htot : totalOf "income" hugeStore.transactions = Float64.inf false := by decide
  refine ⟨by decide, by decide, hrep, ?_⟩
  rintro ⟨pre, d1, d2, hp⟩
  rw [htot] at hp
  have hr := congrArg List.reverse hp
  simp [Float64.fmt2] at hr

/-- C9, amended. For a registered user `u` whose stored transactions `txs` the
gateway lists, `GetReport` returns, with no error, the three-line text whose
income total is the `float64` sum of the amounts of type "income", whose expense
total is the sum of those of type "expense" and whose balance is their `float64`
difference, each formatted by `%.2f`: an optional minus sign, digits, a point and
exactly two decimal digits when the value is finite, and "NaN", "+Inf" or "-Inf"
when it is not; and for the transactions [income 100, expense 40] the text is
"Доходы: 100.00", "Расходы: 40.00", "Баланс: 60.00". -/
theorem report_totals {σ : Type} (repo : Repository σ) (s : σ) (chatID : Int) (u : User)
    (txs : List Transaction)
    (hu : repo.GetUserByChatID s chatID = (some u, none))
    (ht : repo.GetTransactions s u.ID = (txs, none)) :
    GetReport repo s chatID =
      ("Доходы: " ++ Float64.fmt2 (totalOf "income" txs) ++ "\n" ++
       "Расходы: " ++ Float64.fmt2 (totalOf "expense" txs) ++ "\n" ++
       "Баланс: " ++ Float64.fmt2 (Float64.sub (totalOf "income" txs) (totalOf "expense" txs)),
       none) ∧
    (∀ x : Float64,
      (x = Float64.nan ∧ Float64.fmt2 x = "NaN") ∨
      (x = Float64.inf false ∧ Float64.fmt2 x = "+Inf") ∨
      (x = Float64.inf true ∧ Float64.fmt2 x = "-Inf") ∨
      (∃ sg m e digits d1 d2, x = Float64.fin sg m e ∧
        (Float64.fmt2 x).data = (if sg then ['-'] else []) ++ digits ++ ['.', d1, d2] ∧
        digits ≠ [] ∧ (∀ c ∈ digits, isDigit c = true) ∧
        isDigit d1 = true ∧ isDigit d2 = true)) ∧
    (∀ t1 t2 : Transaction, txs = [t1, t2] →
      t1.Type_ = "income" → t1.Amount = Float64.ofNat 100 →
      t2.Type_ = "expense" → t2.Amount = Float64.ofNat 40 →
      GetReport repo s chatID = ("Доходы: 100.00\nРасходы: 40.00\nБаланс: 60.00", none)) := by
  have hrep : GetReport repo s chatID =
      (reportText (totalOf "income" txs) (totalOf "expense" txs), none) := by
    simp [GetReport, hu, ht, foldl_reportStep, totalOf]
  refine ⟨by rw [hrep]; rfl, fmt2_shape, ?_⟩
  intro t1 t2 htx h1 a1 h2 a2
  have hI : totalOf "income" txs = Float64.ofNat 100 := by
    subst htx
    simp [totalOf, h1, h2, a1]
    decide
  have hE : totalOf "expense" txs = Float64.ofNat 40 := by
    subst htx
    simp [totalOf, h1, h2, a2]
    decide
  rw [hrep, hI, hE]
  decide

/-- Witness for C9: chat 7 over `twoUserStore`, where its user has an income of 100
and an expense of 40. -/
theorem report_totals_witness :
    memRepo.GetUserByChatID twoUserStore 7 = (some { ID := 1, ChatID := 7 }, none) ∧
    memRepo.GetTransactions twoUserStore 1 =
      ([{ ID := 1, UserID := 1, Amount := Float64.ofNat 100, Category := "salary",
          Type_ := "income" },
        { ID := 3, UserID := 1, Amount := Float64.ofNat 40, Category := "service",
          Type_ := "expense" }], none) ∧
    GetReport memRepo twoUserStore 7
      = ("Доходы: 100.00\nРасходы: 40.00\nБаланс: 60.00", none) :=
  ⟨by decide, by decide,
   (report_totals memRepo twoUserStore 7 { ID := 1, ChatID := 7 }
      [{ ID := 1, UserID := 1, Amount := Float64.ofNat 100, Category := "salary",
         Type_ := "income" },
       { ID := 3, UserID := 1, Amount := Float64.ofNat 40, Category := "service",
         Type_ := "expense" }]
      (by decide) (by decide)).2.2 _ _ rfl rfl rfl rfl rfl⟩

/-- C10. Over a gateway where, after a successful `DelData` for the user, the user
is still found and `GetTransactions` lists no row for them: for every store (any
prior transactions) and registered user, `ClearData` succeeds and the `GetReport`
that follows returns income total, expense total and balance all `0.00`. -/
theorem clear_then_report_zero {σ : Type} (repo : Repository σ) (s : σ) (chatID : Int)
    (u : User)
    (hu : repo.GetUserByChatID s chatID = (some u, none))
    (hok : (repo.DelData s u.ID).2 = none)
    (hkeep : repo.GetUserByChatID (repo.DelData s u.ID).1 chatID = (some u, none))
    (hdel : repo.GetTransactions (repo.DelData s u.ID).1 u.ID = ([], none)) :
    (ClearData repo s chatID).2 = none ∧
    GetReport repo (ClearData repo s chatID).1 chatID =
      ("Доходы: 0.00\nРасходы: 0.00\nБаланс: 0.00", none) := by
  have hc : ClearData repo s chatID = repo.DelData s u.ID := by
    simp [ClearData, hu]
  rw [hc]
  refine ⟨hok, ?_⟩
  simp only [GetReport, hkeep, hdel]
  decide

/-- The in-memory gateway is such a gateway: while the connection works, `DelData`
succeeds, keeps the users, and leaves no row of that user to list. -/
theorem memRepo_DelData (s : Store) (userID chatID : Int) (hf : s.fault = none) :
    (memRepo.DelData s userID).2 = none ∧
    memRepo.GetUserByChatID (memRepo.DelData s userID).1 chatID
      = memRepo.GetUserByChatID s chatID ∧
    memRepo.GetTransactions (memRepo.DelData s userID).1 userID = ([], none) := by
  simp [memRepo, hf]

/-- Witness for C10: chat 7 with an income of 100 and an expense of 40 stored, then
cleared. -/
theorem clear_then_report_zero_witness :
    (run memRepo sampleHandler
        [press "income", say "100", press "salary", press "expense", say "40", press "educ"]
      ).store.transactions.length = 2 ∧
    GetReport memRepo
      (ClearData memRepo
        (run memRepo sampleHandler
          [press "income", say "100", press "salary", press "expense", say "40", press "educ"]
        ).store 7).1
      7 = ("Доходы: 0.00\nРасходы: 0.00\nБаланс: 0.00", none) :=
  ⟨by decide,
   (clear_then_report_zero memRepo
      (run memRepo sampleHandler
        [press "income", say "100", press "salary", press "expense", say "40", press "educ"]
      ).store 7 { ID := 1, ChatID := 7 }
      (by decide) (by decide) (by decide) (by decide)).2⟩

/-! ### Finance operations over the gateway -/

/-- A lookup of the in-memory gateway that returns no error was made over a
working connection. -/
theorem memRepo_lookup_ok (s : Store) (chatID : Int) (r : Option User)
    (hu : memRepo.GetUserByChatID s chatID = (r, none)) : s.fault = none := by
  cases hf : s.fault with
  | none => rfl
  | some e => simp [memRepo, hf] at hu

/-- C11. `RegisterUser` is idempotent. Over any gateway: when the lookup finds a
user for the chat it returns no error and leaves the store as it is (no write);
and an error it returns is the error of the lookup, or the error of `CreateUser`
called after a lookup that found nobody. Over the in-memory gateway with a working
connection and a store without the chat: the first call succeeds, the second
call succeeds and changes nothing, and exactly one user row for the chat is left. -/
theorem register_user_idempotent {σ : Type} (repo : Repository σ) (s : σ) (chatID : Int) :
    (∀ u, repo.GetUserByChatID s chatID = (some u, none) →
      RegisterUser repo s chatID = (s, none)) ∧
    (∀ e, (RegisterUser repo s chatID).2 = some e →
      (repo.GetUserByChatID s chatID).2 = some e ∨
      (repo.GetUserByChatID s chatID = (none, none) ∧
        (repo.CreateUser s { ChatID := chatID }).2 = some e)) ∧
    (∀ st : Store, st.fault = none → (∀ u ∈ st.users, u.ChatID ≠ chatID) →
      (RegisterUser memRepo st chatID).2 = none ∧
      RegisterUser memRepo (RegisterUser memRepo st chatID).1 chatID
        = ((RegisterUser memRepo st chatID).1, none) ∧
      ((RegisterUser memRepo (RegisterUser memRepo st chatID).1 chatID).1.users.filter
        (fun u => u.ChatID = chatID)).length = 1) := by
  refine ⟨?_, ?_, ?_⟩
  · intro u hu
    simp [RegisterUser, hu]
  · intro e he
    cases hl : repo.GetUserByChatID s chatID with
    | mk user err =>
      cases err with
      | some e1 =>
        left
        simpa [RegisterUser, hl] using he
      | none =>
        cases user with
        | some u => simp [RegisterUser, hl] at he
        | none =>
          right
          refine ⟨rfl, ?_⟩
          simpa [RegisterUser, hl] using he
  · intro st hf hno
    have hfind : st.users.find? (fun u => decide (u.ChatID = chatID)) = none := by
      simpa [List.find?_eq_none] using hno
    have hfilter : st.users.filter (fun u => decide (u.ChatID = chatID)) = [] := by
      simpa [List.filter_eq_nil_iff] using hno
    have h1 : RegisterUser memRepo st chatID =
        ({ st with users := st.users ++ [{ ID := st.nextUserID, ChatID := chatID }],
                   nextUserID := st.nextUserID + 1 }, none) := by
      simp [RegisterUser, memRepo, hf, hfind]
      intro x hx hc
      exact absurd hc (hno x hx)
    have h2 : RegisterUser memRepo
        { st with users := st.users ++ [{ ID := st.nextUserID, ChatID := chatID }],
                  nextUserID := st.nextUserID + 1 } chatID =
        ({ st with users := st.users ++ [{ ID := st.nextUserID, ChatID := chatID }],
                   nextUserID := st.nextUserID + 1 }, none) := by
      simp [RegisterUser, memRepo, hf, List.find?_append, hfind]
    rw [h1]
    refine ⟨rfl, h2, ?_⟩
    rw [h2]
    simp [List.filter_append, hfilter]

/-- Witness for C11: chat 5, which `sampleStore` does not know, registered twice. -/
theorem register_user_idempotent_witness :
    (RegisterUser memRepo sampleStore 5).1.users
      = [{ ID := 1, ChatID := 7 }, { ID := 2, ChatID := 5 }] ∧
    RegisterUser memRepo (RegisterUser memRepo sampleStore 5).1 5
      = ((RegisterUser memRepo sampleStore 5).1, none) ∧
    ((RegisterUser memRepo (RegisterUser memRepo sampleStore 5).1 5).1.users.filter
      (fun u => u.ChatID = 5)).length = 1 ∧
    RegisterUser memRepo sampleStore 7 = (sampleStore, none) :=
  have w := (register_user_idempotent memRepo sampleStore 5).2.2 sampleStore rfl (by decide)
  ⟨by decide, w.2.1, w.2.2,
   (register_user_idempotent memRepo sampleStore 7).1 { ID := 1, ChatID := 7 } (by decide)⟩

/-- C12. For a chat whose lookup returns the user `u` and no error, `AddIncome`
(resp. `AddExpense`) is exactly one `AddTransaction` call on the store it was given,
with the row `UserID = u.ID`, the amount and the category as passed and type
"income" (resp. "expense"): the store and the error it returns are those of that
call, so nothing else is written. -/
theorem add_is_one_insert {σ : Type} (repo : Repository σ) (s : σ) (chatID : Int)
    (u : User) (amount : Float64) (category : String)
    (hu : repo.GetUserByChatID s chatID = (some u, none)) :
    AddIncome repo s chatID amount category =
      repo.AddTransaction s
        { UserID := u.ID, Amount := amount, Category := category, Type_ := "income" } ∧
    AddExpense repo s chatID amount category =
      repo.AddTransaction s
        { UserID := u.ID, Amount := amount, Category := category, Type_ := "expense" } := by
  simp [AddIncome, AddExpense, hu]

/-- Witness for C12: an income of 12.5 in the category "salary" for chat 7. -/
theorem add_is_one_insert_witness :
    memRepo.GetUserByChatID sampleStore 7 = (some { ID := 1, ChatID := 7 }, none) ∧
    AddIncome memRepo sampleStore 7 (Float64.fin false 7036874417766400 (-49)) "salary" =
      memRepo.AddTransaction sampleStore
        { UserID := 1, Amount := Float64.fin false 7036874417766400 (-49),
          Category := "salary", Type_ := "income" } ∧
    (AddIncome memRepo sampleStore 7 (Float64.fin false 7036874417766400 (-49))
        "salary").1.transactions =
      [{ ID := 1, UserID := 1, Amount := Float64.fin false 7036874417766400 (-49),
         Category := "salary", Type_ := "income" }] :=
  ⟨by decide,
   (add_is_one_insert memRepo sampleStore 7 { ID := 1, ChatID := 7 }
      (Float64.fin false 7036874417766400 (-49)) "salary" (by decide)).1,
   by decide⟩

/-- C13. Over the in-memory gateway, for a chat whose lookup returns the user `u`
and no error: `ClearData` returns no error, leaves no row of `u`, keeps the rows
of every other user (the table is the old one without the rows of `u`) and the
users; a second `ClearData` returns no error and changes nothing; and when `u` has
no rows the first one already changes nothing. -/
theorem clear_data_deletes_own_rows (s : Store) (chatID : Int) (u : User)
    (hu : memRepo.GetUserByChatID s chatID = (some u, none)) :
    (ClearData memRepo s chatID).2 = none ∧
    rowsOf u.ID (ClearData memRepo s chatID).1.transactions = [] ∧
    (∀ v, v ≠ u.ID →
      rowsOf v (ClearData memRepo s chatID).1.transactions = rowsOf v s.transactions) ∧
    (ClearData memRepo s chatID).1.transactions
      = s.transactions.filter (fun t => t.UserID ≠ u.ID) ∧
    (ClearData memRepo s chatID).1.users = s.users ∧
    ClearData memRepo (ClearData memRepo s chatID).1 chatID
      = ((ClearData memRepo s chatID).1, none) ∧
    (rowsOf u.ID s.transactions = [] → ClearData memRepo s chatID = (s, none)) := by
  have hf : s.fault = none := memRepo_lookup_ok s chatID _ hu
  have hc : ClearData memRepo s chatID =
      ({ s with transactions := s.transactions.filter (fun t => t.UserID ≠ u.ID) }, none) := by
    simp only [ClearData, hu]
    simp [memRepo, hf]
  have hu2 : memRepo.GetUserByChatID
      { s with transactions := s.transactions.filter (fun t => t.UserID ≠ u.ID) } chatID
      = (some u, none) := by
    simpa [memRepo, hf] using hu
  have hc2 : ClearData memRepo
      { s with transactions := s.transactions.filter (fun t => t.UserID ≠ u.ID) } chatID =
      ({ s with transactions := s.transactions.filter (fun t => t.UserID ≠ u.ID) }, none) := by
    simp only [ClearData, hu2]
    simp [memRepo, hf]
  rw [hc]
  refine ⟨rfl, ?_, ?_, rfl, rfl, hc2, ?_⟩
  · simp [rowsOf, List.filter_filter]
  · intro v hv
    simp only [rowsOf, List.filter_filter]
    congr 1
    funext t
    by_cases ht : t.UserID = v
    · simp [ht, hv]
    · simp [ht]
  · intro hnone
    have hall : s.transactions.filter (fun t => t.UserID ≠ u.ID) = s.transactions := by
      rw [List.filter_eq_self]
      intro t ht
      have : ¬ t.UserID = u.ID := by
        intro heq
        have hmem : t ∈ rowsOf u.ID s.transactions := by
          simp [rowsOf, ht, heq]
        rw [hnone] at hmem
        exact absurd hmem (List.not_mem_nil t)
      simpa using this
    rw [hall]

/-- Witness for C13: chat 7 cleared in a store that also holds a row of chat 8. -/
theorem clear_data_deletes_own_rows_witness :
    memRepo.GetUserByChatID twoUserStore 7 = (some { ID := 1, ChatID := 7 }, none) ∧
    (rowsOf 1 twoUserStore.transactions).length = 2 ∧
    rowsOf 1 (ClearData memRepo twoUserStore 7).1.transactions = [] ∧
    rowsOf 2 (ClearData memRepo twoUserStore 7).1.transactions
      = rowsOf 2 twoUserStore.transactions ∧
    ClearData memRepo (ClearData memRepo twoUserStore 7).1 7
      = ((ClearData memRepo twoUserStore 7).1, none) :=
  have w := clear_data_deletes_own_rows twoUserStore 7 { ID := 1, ChatID := 7 } (by decide)
  ⟨by decide, by decide, w.2.1, w.2.2.1 2 (by decide), w.2.2.2.2.2.1⟩

/-! ### Effects of the handlers on the two maps and on the outbox -/

/-- C14. When `AddIncome` (resp. `AddExpense`) returns an error `e`, `addIncome`
(resp. `addExpense`) sends the failure message "Ошибка при добавлении дохода."
(resp. "Ошибка при добавлении расхода."), logs the error and sends the main menu,
and nothing else (no success confirmation); the chat is left in stage none with no
pending amount; the service was called once, and the store is the one that call
left. -/
theorem add_failure_reported {σ : Type} (repo : Repository σ) (h : BotHandler σ)
    (chatID : Int) (category : String) (e : GoError) :
    ((AddIncome repo h.store chatID (h.amountOf chatID) category).2 = some e →
      (addIncome repo h chatID category).out = h.out ++
        [Outbound.message chatID "Ошибка при добавлении дохода." [],
         Outbound.log ("Ошибка добавления дохода: " ++ e.msg),
         Outbound.message chatID "Выберите действие:" mainMenuKeyboard] ∧
      (addIncome repo h chatID category).calls
        = h.calls ++ [ServiceCall.AddIncome chatID (h.amountOf chatID) category] ∧
      (addIncome repo h chatID category).store
        = (AddIncome repo h.store chatID (h.amountOf chatID) category).1 ∧
      (addIncome repo h chatID category).stateOf chatID = StateNone ∧
      (addIncome repo h chatID category).userAmounts chatID = none) ∧
    ((AddExpense repo h.store chatID (h.amountOf chatID) category).2 = some e →
      (addExpense repo h chatID category).out = h.out ++
        [Outbound.message chatID "Ошибка при добавлении расхода." [],
         Outbound.log ("Ошибка добавления расхода: " ++ e.msg),
         Outbound.message chatID "Выберите действие:" mainMenuKeyboard] ∧
      (addExpense repo h chatID category).calls
        = h.calls ++ [ServiceCall.AddExpense chatID (h.amountOf chatID) category] ∧
      (addExpense repo h chatID category).store
        = (AddExpense repo h.store chatID (h.amountOf chatID) category).1 ∧
      (addExpense repo h chatID category).stateOf chatID = StateNone ∧
      (addExpense repo h chatID category).userAmounts chatID = none) := by
  constructor
  · intro he
    cases hr : AddIncome repo h.store chatID (h.amountOf chatID) category with
    | mk s1 err =>
      rw [hr] at he
      simp only at he
      subst he
      simp [addIncome, hr, sendMainMenu, BotHandler.send, BotHandler.logErr, BotHandler.call,
        BotHandler.resetState, BotHandler.stateOf, StateNone]
  · intro he
    cases hr : AddExpense repo h.store chatID (h.amountOf chatID) category with
    | mk s1 err =>
      rw [hr] at he
      simp only at he
      subst he
      simp [addExpense, hr, sendMainMenu, BotHandler.send, BotHandler.logErr, BotHandler.call,
        BotHandler.resetState, BotHandler.stateOf, StateNone]

/-- Witness for C14: chat 7 chooses "salary" for a pending 12.5 while the
connection is broken. -/
theorem add_failure_reported_witness :
    (AddIncome memRepo (run memRepo brokenHandler [press "income", say "12.5"]).store 7
      ((run memRepo brokenHandler [press "income", say "12.5"]).amountOf 7) "salary").2
      = some ⟨"connection refused"⟩ ∧
    (run memRepo brokenHandler [press "income", say "12.5"]).stateOf 7 = StateIncomeCategory ∧
    (addIncome memRepo (run memRepo brokenHandler [press "income", say "12.5"]) 7 "salary").stateOf 7
      = StateNone ∧
    (addIncome memRepo (run memRepo brokenHandler [press "income", say "12.5"]) 7
      "salary").userAmounts 7 = none ∧
    (addIncome memRepo (run memRepo brokenHandler [press "income", say "12.5"]) 7 "salary").calls
      = [ServiceCall.AddIncome 7 (Float64.fin false 7036874417766400 (-49)) "salary"] :=
  have w := (add_failure_reported memRepo (run memRepo brokenHandler [press "income", say "12.5"])
      7 "salary" ⟨"connection refused"⟩).1 (by decide)
  ⟨by decide, by decide, w.2.2.2.1, w.2.2.2.2, by decide⟩

/-- C15. A callback with data "report" or "clear" leaves both maps of the handler as
they were (the stage and the pending amount of every chat), for every gateway and
every state of its store, hence whether the finance operation succeeds or fails. -/
theorem report_clear_keep_stage {σ : Type} (repo : Repository σ) (h : BotHandler σ)
    (cq : CallbackQuery) (requestErr : Option GoError)
    (hd : cq.Data = "report" ∨ cq.Data = "clear") :
    (handleCallbackQuery repo h cq requestErr).userStates = h.userStates ∧
    (handleCallbackQuery repo h cq requestErr).userAmounts = h.userAmounts := by
  rcases hd with hd | hd
  · cases hr : GetReport repo h.store cq.Message.Chat.ID with
    | mk report err =>
      cases err <;> cases requestErr <;>
        simp [handleCallbackQuery, dispatchCallback, hd, handleReportCommand, hr,
          BotHandler.send, BotHandler.logErr, BotHandler.call]
  · cases hr : ClearData repo h.store cq.Message.Chat.ID with
    | mk s1 err =>
      cases err <;> cases requestErr <;>
        simp [handleCallbackQuery, dispatchCallback, hd, handleClearData, hr,
          BotHandler.send, BotHandler.logErr, BotHandler.call]

/-- Witness for C15: "clear" over a broken connection and "report" over a working
one, each with 12.5 pending in stage `income_category`. -/
theorem report_clear_keep_stage_witness :
    (ClearData memRepo (run memRepo brokenHandler [press "income", say "12.5"]).store 7).2
      = some ⟨"connection refused"⟩ ∧
    (run memRepo brokenHandler [press "income", say "12.5", press "clear"]).stateOf 7
      = StateIncomeCategory ∧
    (run memRepo brokenHandler [press "income", say "12.5", press "clear"]).userAmounts 7
      = some (Float64.fin false 7036874417766400 (-49)) ∧
    (handleCallbackQuery memRepo (run memRepo sampleHandler [press "income", say "12.5"])
      { ID := "q", Message := { Chat := { ID := 7 } }, Data := "report" } none).userStates
      = (run memRepo sampleHandler [press "income", say "12.5"]).userStates :=
  ⟨by decide, by decide, by decide,
   (report_clear_keep_stage memRepo (run memRepo sampleHandler [press "income", say "12.5"])
      { ID := "q", Message := { Chat := { ID := 7 } }, Data := "report" } none
      (Or.inl rfl)).1⟩

/-- C16. For every handler state (any prior stage of the chat), a callback with data
"income" (resp. "expense") sets the stage of the chat to `waiting_income` (resp.
`waiting_expense`) and sends exactly one message, the prompt "Введите сумму
дохода:" (resp. "Введите сумму расхода:"); the pending amounts, the store and the
service calls are untouched. -/
theorem start_action_sets_waiting {σ : Type} (repo : Repository σ) (h : BotHandler σ)
    (cq : CallbackQuery) (requestErr : Option GoError) :
    (cq.Data = "income" →
      (handleCallbackQuery repo h cq requestErr).userStates cq.Message.Chat.ID
        = some StateWaitingIncome ∧
      messagesOf (handleCallbackQuery repo h cq requestErr).out = messagesOf h.out ++
        [Outbound.message cq.Message.Chat.ID "Введите сумму дохода:" []] ∧
      (handleCallbackQuery repo h cq requestErr).userAmounts = h.userAmounts ∧
      (handleCallbackQuery repo h cq requestErr).store = h.store ∧
      (handleCallbackQuery repo h cq requestErr).calls = h.calls) ∧
    (cq.Data = "expense" →
      (handleCallbackQuery repo h cq requestErr).userStates cq.Message.Chat.ID
        = some StateWaitingExpense ∧
      messagesOf (handleCallbackQuery repo h cq requestErr).out = messagesOf h.out ++
        [Outbound.message cq.Message.Chat.ID "Введите сумму расхода:" []] ∧
      (handleCallbackQuery repo h cq requestErr).userAmounts = h.userAmounts ∧
      (handleCallbackQuery repo h cq requestErr).store = h.store ∧
      (handleCallbackQuery repo h cq requestErr).calls = h.calls) := by
  constructor
  · intro hd
    cases requestErr <;>
      simp [handleCallbackQuery, dispatchCallback, hd, BotHandler.send, BotHandler.setState,
        BotHandler.logErr, messagesOf, List.filter_append]
  · intro hd
    cases requestErr <;>
      simp [handleCallbackQuery, dispatchCallback, hd, BotHandler.send, BotHandler.setState,
        BotHandler.logErr, messagesOf, List.filter_append]

/-- Witness for C16: the "expense" button pressed in chat 7 while the chat is in
stage `income_category`. -/
theorem start_action_sets_waiting_witness :
    (run memRepo sampleHandler [press "income", say "12.5"]).stateOf 7 = StateIncomeCategory ∧
    (handleCallbackQuery memRepo (run memRepo sampleHandler [press "income", say "12.5"])
      { ID := "q", Message := { Chat := { ID := 7 } }, Data := "expense" } none).userStates 7
      = some StateWaitingExpense :=
  ⟨by decide,
   ((start_action_sets_waiting memRepo (run memRepo sampleHandler [press "income", say "12.5"])
      { ID := "q", Message := { Chat := { ID := 7 } }, Data := "expense" } none).2 rfl).1⟩

/-- The commands `/start`, `/menu` and `/options` leave both maps as they were. -/
theorem handleCommand_maps {σ : Type} (repo : Repository σ) (h : BotHandler σ) (chatID : Int)
    (text : String) :
    (handleCommand repo h chatID text).userStates = h.userStates ∧
    (handleCommand repo h chatID text).userAmounts = h.userAmounts := by
  unfold handleCommand
  split_ifs
  · cases hr : RegisterUser repo h.store chatID with
    | mk s1 err => cases err <;> simp [sendMainMenu, BotHandler.send, BotHandler.logErr,
        BotHandler.call]
  · simp [sendMainMenu, BotHandler.send]
  · simp [sendOptionMenu, BotHandler.send]
  · simp

/-- What a callback does to the two maps at a chat `c`: nothing; or, for the chat
of the callback, the stage is set to a waiting stage by "income" or "expense", or
the chat is reset. -/
theorem handleCallbackQuery_maps {σ : Type} (repo : Repository σ) (h : BotHandler σ)
    (cq : CallbackQuery) (requestErr : Option GoError) (c : Int) :
    ((handleCallbackQuery repo h cq requestErr).userStates c = h.userStates c ∧
      (handleCallbackQuery repo h cq requestErr).userAmounts c = h.userAmounts c) ∨
    (c = cq.Message.Chat.ID ∧ cq.Data = "income" ∧
      (handleCallbackQuery repo h cq requestErr).userStates c = some StateWaitingIncome ∧
      (handleCallbackQuery repo h cq requestErr).userAmounts c = h.userAmounts c) ∨
    (c = cq.Message.Chat.ID ∧ cq.Data = "expense" ∧
      (handleCallbackQuery repo h cq requestErr).userStates c = some StateWaitingExpense ∧
      (handleCallbackQuery repo h cq requestErr).userAmounts c = h.userAmounts c) ∨
    (c = cq.Message.Chat.ID ∧
      (handleCallbackQuery repo h cq requestErr).userStates c = some StateNone ∧
      (handleCallbackQuery repo h cq requestErr).userAmounts c = none) := by
  have hq : (handleCallbackQuery repo h cq requestErr).userStates
        = (dispatchCallback repo h cq.Message.Chat.ID cq.Data).userStates ∧
      (handleCallbackQuery repo h cq requestErr).userAmounts
        = (dispatchCallback repo h cq.Message.Chat.ID cq.Data).userAmounts := by
    cases requestErr <;> simp [handleCallbackQuery, BotHandler.logErr]
  rw [hq.1, hq.2]
  by_cases hc : c = cq.Message.Chat.ID
  · unfold dispatchCallback
    split_ifs with h1 h2 h3 h4 h5 h6
    · right; left
      simp [hc, h1, BotHandler.send, BotHandler.setState]
    · right; right; left
      simp [hc, h2, BotHandler.send, BotHandler.setState]
    · left
      cases hr : GetReport repo h.store cq.Message.Chat.ID with
      | mk report err =>
        cases err <;> simp [handleReportCommand, hr, BotHandler.send, BotHandler.logErr,
          BotHandler.call]
    · left
      cases hr : ClearData repo h.store cq.Message.Chat.ID with
      | mk s1 err =>
        cases err <;> simp [handleClearData, hr, BotHandler.send, BotHandler.logErr,
          BotHandler.call]
    · right; right; right
      have w := (add_calls_and_resets repo h cq.Message.Chat.ID cq.Data).1
      exact ⟨hc, by rw [hc]; exact w.2.2.1, by rw [hc]; exact w.2.2.2⟩
    · right; right; right
      have w := (add_calls_and_resets repo h cq.Message.Chat.ID cq.Data).2
      exact ⟨hc, by rw [hc]; exact w.2.2.1, by rw [hc]; exact w.2.2.2⟩
    · left
      simp
  · left
    unfold dispatchCallback
    split_ifs with h1 h2 h3 h4 h5 h6
    · simp [hc, BotHandler.send, BotHandler.setState]
    · simp [hc, BotHandler.send, BotHandler.setState]
    · cases hr : GetReport repo h.store cq.Message.Chat.ID with
      | mk report err =>
        cases err <;> simp [handleReportCommand, hr, BotHandler.send, BotHandler.logErr,
          BotHandler.call]
    · cases hr : ClearData repo h.store cq.Message.Chat.ID with
      | mk s1 err =>
        cases err <;> simp [handleClearData, hr, BotHandler.send, BotHandler.logErr,
          BotHandler.call]
    · cases hr : AddIncome repo h.store cq.Message.Chat.ID
          (h.amountOf cq.Message.Chat.ID) cq.Data with
      | mk s1 err =>
        cases err <;> simp [addIncome, hr, sendMainMenu, BotHandler.send, BotHandler.logErr,
          BotHandler.call, BotHandler.resetState, hc]
    · cases hr : AddExpense repo h.store cq.Message.Chat.ID
          (h.amountOf cq.Message.Chat.ID) cq.Data with
      | mk s1 err =>
        cases err <;> simp [addExpense, hr, sendMainMenu, BotHandler.send, BotHandler.logErr,
          BotHandler.call, BotHandler.resetState, hc]
    · simp

/-- What a text message does to the two maps at a chat `c`: nothing, and it is
then no accepted amount entry of `c`; or, for the chat of the message, the chat is
reset (by `/cancel`), or the message is an accepted amount entry: the chat was in a
waiting stage, is now in the category stage of the same kind, and the pending
amount is the accepted one, which does not satisfy `amount <= 0`. -/
theorem handleTransactionInput_maps {σ : Type} (repo : Repository σ) (h : BotHandler σ)
    (msg : Message) (c : Int) :
    ((handleTransactionInput repo h msg).userStates c = h.userStates c ∧
      (handleTransactionInput repo h msg).userAmounts c = h.userAmounts c ∧
      acceptedAmount h c (Update.message msg) = none) ∨
    (c = msg.Chat.ID ∧
      (handleTransactionInput repo h msg).userStates c = some StateNone ∧
      (handleTransactionInput repo h msg).userAmounts c = none) ∨
    (c = msg.Chat.ID ∧ h.stateOf c = StateWaitingIncome ∧
      (handleTransactionInput repo h msg).userStates c = some StateIncomeCategory ∧
      ∃ a, acceptedAmount h c (Update.message msg) = some a ∧
        (handleTransactionInput repo h msg).userAmounts c = some a ∧
        Float64.le a Float64.zero = false) ∨
    (c = msg.Chat.ID ∧ h.stateOf c = StateWaitingExpense ∧
      (handleTransactionInput repo h msg).userStates c = some StateExpenseCategory ∧
      ∃ a, acceptedAmount h c (Update.message msg) = some a ∧
        (handleTransactionInput repo h msg).userAmounts c = some a ∧
        Float64.le a Float64.zero = false) := by
  have hcmd := handleCommand_maps repo h msg.Chat.ID (inputText h msg)
  have hst : (handleCommand repo h msg.Chat.ID (inputText h msg)).stateOf msg.Chat.ID
      = h.stateOf msg.Chat.ID := by
    simp [BotHandler.stateOf, hcmd.1]
  by_cases hc : c = msg.Chat.ID
  · subst hc
    by_cases hcancel : inputText h msg = "/cancel"
    · right; left
      simp [handleTransactionInput, hcancel, sendMainMenu, BotHandler.send, BotHandler.resetState]
    · by_cases hw : h.stateOf msg.Chat.ID = StateWaitingIncome ∨
          h.stateOf msg.Chat.ID = StateWaitingExpense
      · by_cases hbad : ((ParseFloat (TrimSpace (inputText h msg))).2.isSome ||
            Float64.le (ParseFloat (TrimSpace (inputText h msg))).1 Float64.zero) = true
        · left
          simp only [handleTransactionInput, hcancel, if_false, hst, hw, if_true, hbad]
          simp [BotHandler.send, hcmd.1, hcmd.2, acceptedAmount, hcancel, hw, hbad]
        · have hle : Float64.le (ParseFloat (TrimSpace (inputText h msg))).1 Float64.zero
              = false := by
            cases hl : Float64.le (ParseFloat (TrimSpace (inputText h msg))).1 Float64.zero with
            | false => rfl
            | true => simp [hl] at hbad
          have hacc : acceptedAmount h msg.Chat.ID (Update.message msg)
              = some (ParseFloat (TrimSpace (inputText h msg))).1 := by
            simp [acceptedAmount, hcancel, hw, hbad]
          rcases hw with hi | he
          · right; right; left
            refine ⟨rfl, hi, ?_, (ParseFloat (TrimSpace (inputText h msg))).1, hacc, ?_, hle⟩
            · simp only [handleTransactionInput, hcancel, if_false, hst, hi, true_or, if_true,
                hbad]
              simp [sendIncomeCategories, BotHandler.send, BotHandler.setState,
                BotHandler.setAmount]
            · simp only [handleTransactionInput, hcancel, if_false, hst, hi, true_or, if_true,
                hbad]
              simp [sendIncomeCategories, BotHandler.send, BotHandler.setState,
                BotHandler.setAmount]
          · have hne : ¬ StateWaitingExpense = StateWaitingIncome := by decide
            right; right; right
            refine ⟨rfl, he, ?_, (ParseFloat (TrimSpace (inputText h msg))).1, hacc, ?_, hle⟩
            · simp only [handleTransactionInput, hcancel, if_false, hst, he, or_true, if_true,
                hbad, hne]
              simp [sendExpenseCategories, BotHandler.send, BotHandler.setState,
                BotHandler.setAmount]
            · simp only [handleTransactionInput, hcancel, if_false, hst, he, or_true, if_true,
                hbad, hne]
              simp [sendExpenseCategories, BotHandler.send, BotHandler.setState,
                BotHandler.setAmount]
      · left
        simp only [handleTransactionInput, hcancel, if_false, hst, hw]
        simp [hcmd.1, hcmd.2, acceptedAmount, hw]
  · left
    have hc2 : ¬ msg.Chat.ID = c := fun e => hc e.symm
    refine ⟨?_, ?_, by simp [acceptedAmount, hc2]⟩
    · unfold handleTransactionInput
      simp only
      split_ifs <;>
        simp [sendMainMenu, sendIncomeCategories, sendExpenseCategories, BotHandler.send,
          BotHandler.resetState, BotHandler.setState, BotHandler.setAmount, hc, hcmd.1]
    · unfold handleTransactionInput
      simp only
      split_ifs <;>
        simp [sendMainMenu, sendIncomeCategories, sendExpenseCategories, BotHandler.send,
          BotHandler.resetState, BotHandler.setState, BotHandler.setAmount, hc, hcmd.2]

/-! ### Stage transitions -/

/-- C17, as stated, fails: chat 7 is in stage `income_category` and the "expense"
button is pressed; the stage becomes `waiting_expense`, which is neither the same
stage, nor none, nor one step forward. -/
theorem selector_leaves_category_stage :
    (run memRepo sampleHandler [press "income", say "12.5"]).stateOf 7 = StateIncomeCategory ∧
    (handleUpdate memRepo (run memRepo sampleHandler [press "income", say "12.5"])
      (press "expense")).stateOf 7 = StateWaitingExpense ∧
    linearStep ((run memRepo sampleHandler [press "income", say "12.5"]).stateOf 7)
      ((handleUpdate memRepo (run memRepo sampleHandler [press "income", say "12.5"])
        (press "expense")).stateOf 7) = false := by
  decide

/-- C17, amended. For every update handled and every chat, the stage of the chat
stays the same, is reset to none, or advances one step along
none, waiting_kind, kind_category, none; or the update is the "income" (resp.
"expense") button pressed in that chat, which sets the stage to `waiting_income`
(resp. `waiting_expense`) whatever the stage was. -/
theorem stage_step_linear_or_selector {σ : Type} (repo : Repository σ) (h : BotHandler σ)
    (u : Update) (c : Int) :
    linearStep (h.stateOf c) ((handleUpdate repo h u).stateOf c) = true ∨
    (isPress u c "income" ∧ (handleUpdate repo h u).stateOf c = StateWaitingIncome) ∨
    (isPress u c "expense" ∧ (handleUpdate repo h u).stateOf c = StateWaitingExpense) := by
  have hsame : ∀ h1 : BotHandler σ, h1.userStates c = h.userStates c →
      linearStep (h.stateOf c) (h1.stateOf c) = true := by
    intro h1 he
    simp [linearStep, BotHandler.stateOf, he]
  have hnone : ∀ h1 : BotHandler σ, h1.userStates c = some StateNone →
      linearStep (h.stateOf c) (h1.stateOf c) = true := by
    intro h1 he
    simp [linearStep, BotHandler.stateOf, he]
  cases u with
  | callbackQuery cq requestErr =>
    rcases handleCallbackQuery_maps repo h cq requestErr c with
      ⟨h1, _⟩ | ⟨hc, hd, h1, _⟩ | ⟨hc, hd, h1, _⟩ | ⟨_, h1, _⟩
    · left; exact hsame _ h1
    · right; left
      exact ⟨⟨hc.symm, hd⟩, by simp [handleUpdate, BotHandler.stateOf, h1]⟩
    · right; right
      exact ⟨⟨hc.symm, hd⟩, by simp [handleUpdate, BotHandler.stateOf, h1]⟩
    · left; exact hnone _ h1
  | message msg =>
    rcases handleTransactionInput_maps repo h msg c with
      ⟨h1, _⟩ | ⟨_, h1, _⟩ | ⟨_, hw, h1, _⟩ | ⟨_, hw, h1, _⟩
    · left; exact hsame _ h1
    · left; exact hnone _ h1
    · left
      simp [handleUpdate, linearStep, BotHandler.stateOf, h1]
      simp [BotHandler.stateOf] at hw
      simp [hw]
    · left
      simp [handleUpdate, linearStep, BotHandler.stateOf, h1]
      simp [BotHandler.stateOf] at hw
      simp [hw]

/-! ### Messages sent per transition -/

/-- C18, as stated, fails: `/cancel` in chat 7 sends two messages (the notice and
the main menu), not one. -/
theorem cancel_sends_two_messages :
    messagesOf (handleTransactionInput memRepo sampleHandler
      { Chat := { ID := 7 }, Text := "/cancel" }).out =
      [Outbound.message 7 "Действие отменено. Вы возвращены в главное меню." [],
       Outbound.message 7 "Выберите действие:" mainMenuKeyboard] ∧
    (messagesOf (handleTransactionInput memRepo sampleHandler
      { Chat := { ID := 7 }, Text := "/cancel" }).out).length
      ≠ (messagesOf sampleHandler.out).length + 1 := by
  decide

/-- The messages sent by `addIncome`: the confirmation, or the failure message
when `AddIncome` returns an error, and then the main menu. -/
theorem addIncome_messages {σ : Type} (repo : Repository σ) (h : BotHandler σ)
    (chatID : Int) (category : String) :
    messagesOf (addIncome repo h chatID category).out = messagesOf h.out ++
      [Outbound.message chatID
        (if (AddIncome repo h.store chatID (h.amountOf chatID) category).2.isSome
          then "Ошибка при добавлении дохода." else "Доход успешно добавлен.") [],
       Outbound.message chatID "Выберите действие:" mainMenuKeyboard] := by
  cases hr : AddIncome repo h.store chatID (h.amountOf chatID) category with
  | mk s1 err =>
    cases err <;>
      simp [addIncome, hr, sendMainMenu, BotHandler.send, BotHandler.logErr, BotHandler.call,
        BotHandler.resetState, messagesOf, List.filter_append]

/-- The messages sent by `addExpense`: the confirmation, or the failure message
when `AddExpense` returns an error, and then the main menu. -/
theorem addExpense_messages {σ : Type} (repo : Repository σ) (h : BotHandler σ)
    (chatID : Int) (category : String) :
    messagesOf (addExpense repo h chatID category).out = messagesOf h.out ++
      [Outbound.message chatID
        (if (AddExpense repo h.store chatID (h.amountOf chatID) category).2.isSome
          then "Ошибка при добавлении расхода." else "Расход успешно добавлен.") [],
       Outbound.message chatID "Выберите действие:" mainMenuKeyboard] := by
  cases hr : AddExpense repo h.store chatID (h.amountOf chatID) category with
  | mk s1 err =>
    cases err <;>
      simp [addExpense, hr, sendMainMenu, BotHandler.send, BotHandler.logErr, BotHandler.call,
        BotHandler.resetState, messagesOf, List.filter_append]

/-- The callback answer and its log line are no chat messages: a callback sends
the messages its `switch` sends. -/
theorem handleCallbackQuery_messages {σ : Type} (repo : Repository σ) (h : BotHandler σ)
    (cq : CallbackQuery) (requestErr : Option GoError) :
    messagesOf (handleCallbackQuery repo h cq requestErr).out
      = messagesOf (dispatchCallback repo h cq.Message.Chat.ID cq.Data).out := by
  cases requestErr <;>
    simp [handleCallbackQuery, BotHandler.logErr, messagesOf, List.filter_append]

/-- C18, amended. Each transition sends exactly the following messages, in this
order, and no other. One message: a start action sends the amount prompt of its
kind; a "report" sends the report text, or "Ошибка при получении отчета." when
`GetReport` returns an error; a "clear" sends "Данные успешно очищены.", or "Ошибка
при очистке данных." when `ClearData` returns an error; an amount entry (a text
that is no command, in a waiting stage) sends the re-prompt when it is rejected and
the category menu of the kind of the stage when it is accepted. Two messages:
`/cancel` sends the cancellation notice and then the main menu; a category token
that the callback switch dispatches sends the confirmation ("Доход успешно
добавлен." / "Расход успешно добавлен."), or the failure message when the service
returns an error, and then the main menu. -/
theorem messages_per_transition {σ : Type} (repo : Repository σ) (h : BotHandler σ) :
    (∀ (cq : CallbackQuery) (requestErr : Option GoError), cq.Data = "income" →
      messagesOf (handleCallbackQuery repo h cq requestErr).out = messagesOf h.out ++
        [Outbound.message cq.Message.Chat.ID "Введите сумму дохода:" []]) ∧
    (∀ (cq : CallbackQuery) (requestErr : Option GoError), cq.Data = "expense" →
      messagesOf (handleCallbackQuery repo h cq requestErr).out = messagesOf h.out ++
        [Outbound.message cq.Message.Chat.ID "Введите сумму расхода:" []]) ∧
    (∀ (cq : CallbackQuery) (requestErr : Option GoError), cq.Data = "report" →
      messagesOf (handleCallbackQuery repo h cq requestErr).out = messagesOf h.out ++
        [Outbound.message cq.Message.Chat.ID
          (if (GetReport repo h.store cq.Message.Chat.ID).2.isSome
            then "Ошибка при получении отчета."
            else (GetReport repo h.store cq.Message.Chat.ID).1) []]) ∧
    (∀ (cq : CallbackQuery) (requestErr : Option GoError), cq.Data = "clear" →
      messagesOf (handleCallbackQuery repo h cq requestErr).out = messagesOf h.out ++
        [Outbound.message cq.Message.Chat.ID
          (if (ClearData repo h.store cq.Message.Chat.ID).2.isSome
            then "Ошибка при очистке данных." else "Данные успешно очищены.") []]) ∧
    (∀ (msg : Message),
      h.stateOf msg.Chat.ID = StateWaitingIncome ∨ h.stateOf msg.Chat.ID = StateWaitingExpense →
      inputText h msg ≠ "/start" → inputText h msg ≠ "/menu" →
      inputText h msg ≠ "/options" → inputText h msg ≠ "/cancel" →
      messagesOf (handleTransactionInput repo h msg).out = messagesOf h.out ++
        [if ((ParseFloat (TrimSpace (inputText h msg))).2.isSome ||
              Float64.le (ParseFloat (TrimSpace (inputText h msg))).1 Float64.zero) = true
          then Outbound.message msg.Chat.ID "Укажите корректную сумму." []
          else if h.stateOf msg.Chat.ID = StateWaitingIncome
            then Outbound.message msg.Chat.ID "Выберите категорию дохода:" incomeKeyboard
            else Outbound.message msg.Chat.ID "Выберите категорию расхода:" expenseKeyboard]) ∧
    (∀ (msg : Message), inputText h msg = "/cancel" →
      messagesOf (handleTransactionInput repo h msg).out = messagesOf h.out ++
        [Outbound.message msg.Chat.ID "Действие отменено. Вы возвращены в главное меню." [],
         Outbound.message msg.Chat.ID "Выберите действие:" mainMenuKeyboard]) ∧
    (∀ (cq : CallbackQuery) (requestErr : Option GoError),
      cq.Data ∈ ["salary", "debit", "invest", "deposit"] →
      messagesOf (handleCallbackQuery repo h cq requestErr).out = messagesOf h.out ++
        [Outbound.message cq.Message.Chat.ID
          (if (AddIncome repo h.store cq.Message.Chat.ID (h.amountOf cq.Message.Chat.ID)
                cq.Data).2.isSome
            then "Ошибка при добавлении дохода." else "Доход успешно добавлен.") [],
         Outbound.message cq.Message.Chat.ID "Выберите действие:" mainMenuKeyboard]) ∧
    (∀ (cq : CallbackQuery) (requestErr : Option GoError),
      cq.Data ∈ ["shop", "service", "cafe", "link", "educ"] →
      messagesOf (handleCallbackQuery repo h cq requestErr).out = messagesOf h.out ++
        [Outbound.message cq.Message.Chat.ID
          (if (AddExpense repo h.store cq.Message.Chat.ID (h.amountOf cq.Message.Chat.ID)
                cq.Data).2.isSome
            then "Ошибка при добавлении расхода." else "Расход успешно добавлен.") [],
         Outbound.message cq.Message.Chat.ID "Выберите действие:" mainMenuKeyboard]) := by
  refine ⟨?_, ?_, ?_, ?_, ?_, ?_, ?_, ?_⟩
  · intro cq requestErr hd
    rw [handleCallbackQuery_messages]
    simp [dispatchCallback, hd, BotHandler.send, BotHandler.setState, messagesOf,
      List.filter_append]
  · intro cq requestErr hd
    rw [handleCallbackQuery_messages]
    simp [dispatchCallback, hd, BotHandler.send, BotHandler.setState, messagesOf,
      List.filter_append]
  · intro cq requestErr hd
    rw [handleCallbackQuery_messages]
    cases hr : GetReport repo h.store cq.Message.Chat.ID with
    | mk report err =>
      cases err <;>
        simp [dispatchCallback, hd, handleReportCommand, hr, BotHandler.send,
          BotHandler.logErr, BotHandler.call, messagesOf, List.filter_append]
  · intro cq requestErr hd
    rw [handleCallbackQuery_messages]
    cases hr : ClearData repo h.store cq.Message.Chat.ID with
    | mk s1 err =>
      cases err <;>
        simp [dispatchCallback, hd, handleClearData, hr, BotHandler.send,
          BotHandler.logErr, BotHandler.call, messagesOf, List.filter_append]
  · intro msg hw c1 c2 c3 c4
    have hne : ¬ StateWaitingExpense = StateWaitingIncome := by decide
    by_cases hbad : ((ParseFloat (TrimSpace (inputText h msg))).2.isSome ||
        Float64.le (ParseFloat (TrimSpace (inputText h msg))).1 Float64.zero) = true
    · simp only [handleTransactionInput, c4, if_false, handleCommand_other repo h _ _ c1 c2 c3,
        hw, if_true, hbad]
      simp [BotHandler.send, messagesOf, List.filter_append]
    · rcases hw with hi | he
      · simp only [handleTransactionInput, c4, if_false, handleCommand_other repo h _ _ c1 c2 c3,
          hi, true_or, if_true, hbad]
        simp [sendIncomeCategories, BotHandler.send, BotHandler.setState, BotHandler.setAmount,
          messagesOf, List.filter_append]
      · simp only [handleTransactionInput, c4, if_false, handleCommand_other repo h _ _ c1 c2 c3,
          he, or_true, if_true, hbad, hne]
        simp [sendExpenseCategories, BotHandler.send, BotHandler.setState, BotHandler.setAmount,
          messagesOf, List.filter_append]
  · intro msg hcancel
    simp [handleTransactionInput, hcancel, sendMainMenu, BotHandler.send, BotHandler.resetState,
      messagesOf, List.filter_append]
  · intro cq requestErr hd
    have hi : cq.Data = "salary" ∨ cq.Data = "debit" ∨ cq.Data = "invest" ∨
        cq.Data = "deposit" := by
      simpa using hd
    have hdisp : dispatchCallback repo h cq.Message.Chat.ID cq.Data
        = addIncome repo h cq.Message.Chat.ID cq.Data := by
      rcases hi with hd | hd | hd | hd <;> simp [dispatchCallback, hd]
    rw [handleCallbackQuery_messages, hdisp, addIncome_messages]
  · intro cq requestErr hd
    have hi : cq.Data = "shop" ∨ cq.Data = "service" ∨ cq.Data = "cafe" ∨ cq.Data = "link" ∨
        cq.Data = "educ" := by
      simpa using hd
    have hdisp : dispatchCallback repo h cq.Message.Chat.ID cq.Data
        = addExpense repo h cq.Message.Chat.ID cq.Data := by
      rcases hi with hd | hd | hd | hd | hd <;> simp [dispatchCallback, hd]
    rw [handleCallbackQuery_messages, hdisp, addExpense_messages]

/-- Witness for C18: in chat 7, after the "income" button and the amount 12.5, the
category "salary" sends the confirmation and then the main menu. -/
theorem messages_per_transition_witness :
    messagesOf (run memRepo sampleHandler [press "income"]).out
      = [Outbound.message 7 "Введите сумму дохода:" []] ∧
    messagesOf (run memRepo sampleHandler [press "income", say "12.5"]).out
      = [Outbound.message 7 "Введите сумму дохода:" [],
         Outbound.message 7 "Выберите категорию дохода:" incomeKeyboard] ∧
    messagesOf (handleCallbackQuery memRepo
      (run memRepo sampleHandler [press "income", say "12.5"])
      { ID := "q", Message := { Chat := { ID := 7 } }, Data := "salary" } none).out
      = messagesOf (run memRepo sampleHandler [press "income", say "12.5"]).out ++
        [Outbound.message 7 "Доход успешно добавлен." [],
         Outbound.message 7 "Выберите действие:" mainMenuKeyboard] :=
  ⟨by decide, by decide,
   ((messages_per_transition memRepo (run memRepo sampleHandler [press "income", say "12.5"])
      ).2.2.2.2.2.2.1 { ID := "q", Message := { Chat := { ID := 7 } }, Data := "salary" } none
      (by decide)).trans (by decide)⟩

/-- C19, at the failing input. Chat 5 has no user; after the "income" button and
the amount 12.5, the category "salary" is pressed: no row is stored, and the
messages sent are the success confirmation "Доход успешно добавлен." and the main
menu; nothing tells the user to restart. -/
theorem unregistered_category_press_confirms :
    memRepo.GetUserByChatID sampleStore 5 = (none, none) ∧
    (run memRepo sampleHandler [pressIn 5 "income", sayIn 5 "12.5"]).stateOf 5
      = StateIncomeCategory ∧
    (run memRepo sampleHandler
      [pressIn 5 "income", sayIn 5 "12.5", pressIn 5 "salary"]).store.transactions = [] ∧
    (messagesOf (run memRepo sampleHandler
      [pressIn 5 "income", sayIn 5 "12.5", pressIn 5 "salary"]).out).drop 2 =
      [Outbound.message 5 "Доход успешно добавлен." [],
       Outbound.message 5 "Выберите действие:" mainMenuKeyboard] := by
  decide

/-! ### The pending amount in a category stage -/

/-- One update keeps the invariant of a chat `c`: if, whenever `c` is in a category
stage, its pending amount is `prev` and does not satisfy `amount <= 0`, then after
the update the same holds with `prev` replaced by the amount accepted by this
update, if it is an accepted amount entry of `c`. -/
theorem step_category_invariant {σ : Type} (repo : Repository σ) (h : BotHandler σ)
    (u : Update) (c : Int) (prev : Option Float64)
    (inv : h.stateOf c = StateIncomeCategory ∨ h.stateOf c = StateExpenseCategory →
      ∃ a, h.userAmounts c = some a ∧ prev = some a ∧ Float64.le a Float64.zero = false)
    (hcat : (handleUpdate repo h u).stateOf c = StateIncomeCategory ∨
      (handleUpdate repo h u).stateOf c = StateExpenseCategory) :
    ∃ a, (handleUpdate repo h u).userAmounts c = some a ∧
      (match acceptedAmount h c u with
        | some x => some x
        | none => prev) = some a ∧
      Float64.le a Float64.zero = false := by
  cases u with
  | callbackQuery cq requestErr =>
    simp only [handleUpdate] at hcat ⊢
    simp only [acceptedAmount]
    rcases handleCallbackQuery_maps repo h cq requestErr c with
      ⟨h1, h2⟩ | ⟨_, _, h1, _⟩ | ⟨_, _, h1, _⟩ | ⟨_, h1, _⟩
    · have hst : (handleCallbackQuery repo h cq requestErr).stateOf c = h.stateOf c := by
        simp [BotHandler.stateOf, h1]
      rw [hst] at hcat
      rw [h2]
      exact inv hcat
    · simp [BotHandler.stateOf, h1, StateWaitingIncome, StateIncomeCategory,
        StateExpenseCategory] at hcat
    · simp [BotHandler.stateOf, h1, StateWaitingExpense, StateIncomeCategory,
        StateExpenseCategory] at hcat
    · simp [BotHandler.stateOf, h1, StateNone, StateIncomeCategory,
        StateExpenseCategory] at hcat
  | message msg =>
    simp only [handleUpdate] at hcat ⊢
    rcases handleTransactionInput_maps repo h msg c with
      ⟨h1, h2, h3⟩ | ⟨_, h1, _⟩ | ⟨_, _, _, a, h3, h4, h5⟩ | ⟨_, _, _, a, h3, h4, h5⟩
    · have hst : (handleTransactionInput repo h msg).stateOf c = h.stateOf c := by
        simp [BotHandler.stateOf, h1]
      rw [hst] at hcat
      rw [h2, h3]
      exact inv hcat
    · simp [BotHandler.stateOf, h1, StateNone, StateIncomeCategory,
        StateExpenseCategory] at hcat
    · exact ⟨a, h4, by rw [h3], h5⟩
    · exact ⟨a, h4, by rw [h3], h5⟩

/-- The invariant of `step_category_invariant` along a run. -/
theorem run_category_invariant {σ : Type} (repo : Repository σ) (c : Int)
    (updates : List Update) :
    ∀ (h : BotHandler σ) (prev : Option Float64),
      (h.stateOf c = StateIncomeCategory ∨ h.stateOf c = StateExpenseCategory →
        ∃ a, h.userAmounts c = some a ∧ prev = some a ∧ Float64.le a Float64.zero = false) →
      ((run repo h updates).stateOf c = StateIncomeCategory ∨
        (run repo h updates).stateOf c = StateExpenseCategory) →
      ∃ a, (run repo h updates).userAmounts c = some a ∧
        (match lastAccepted repo c h updates with
          | some x => some x
          | none => prev) = some a ∧
        Float64.le a Float64.zero = false := by
  induction updates with
  | nil =>
    intro h prev inv hcat
    exact inv hcat
  | cons u us ih =>
    intro h prev inv hcat
    have hrun : run repo h (u :: us) = run repo (handleUpdate repo h u) us := rfl
    rw [hrun] at hcat ⊢
    obtain ⟨a, h1, h2, h3⟩ := ih (handleUpdate repo h u)
      (match acceptedAmount h c u with
        | some x => some x
        | none => prev)
      (step_category_invariant repo h u c prev inv) hcat
    refine ⟨a, h1, ?_, h3⟩
    simp only [lastAccepted]
    cases hl : lastAccepted repo c (handleUpdate repo h u) us with
    | some x => simpa [hl] using h2
    | none => simpa [hl] using h2

/-- C20. Starting from the empty maps, after every sequence of updates: whenever a
chat is in stage `income_category` or `expense_category`, it has a pending amount
stored, that amount is the one accepted by the most recent accepted amount entry
of that chat, and it does not satisfy `amount <= 0`. -/
theorem category_stage_has_accepted_amount {σ : Type} (repo : Repository σ)
    (selfUserName : String) (db : σ) (updates : List Update) (c : Int)
    (hcat : (run repo (NewBotHandler selfUserName db) updates).stateOf c = StateIncomeCategory ∨
      (run repo (NewBotHandler selfUserName db) updates).stateOf c = StateExpenseCategory) :
    ∃ a, (run repo (NewBotHandler selfUserName db) updates).userAmounts c = some a ∧
      lastAccepted repo c (NewBotHandler selfUserName db) updates = some a ∧
      Float64.le a Float64.zero = false := by
  have hinit : (NewBotHandler selfUserName db).stateOf c = StateIncomeCategory ∨
      (NewBotHandler selfUserName db).stateOf c = StateExpenseCategory →
      ∃ a, (NewBotHandler selfUserName db).userAmounts c = some a ∧
        (none : Option Float64) = some a ∧ Float64.le a Float64.zero = false := by
    intro hc
    simp [NewBotHandler, BotHandler.stateOf, StateIncomeCategory, StateExpenseCategory] at hc
  obtain ⟨a, h1, h2, h3⟩ :=
    run_category_invariant repo c updates (NewBotHandler selfUserName db) none hinit hcat
  refine ⟨a, h1, ?_, h3⟩
  cases hl : lastAccepted repo c (NewBotHandler selfUserName db) updates with
  | some x => simpa [hl] using h2
  | none => simp [hl] at h2

/-- Witness for C20: chat 7 enters 12.5 as income, cancels, then enters 40 as
expense; the pending amount in stage `expense_category` is 40. -/
theorem category_stage_has_accepted_amount_witness :
    (run memRepo (NewBotHandler "finbot" sampleStore)
      [press "income", say "12.5", say "/cancel", press "expense", say "40"]).stateOf 7
      = StateExpenseCategory ∧
    lastAccepted memRepo 7 (NewBotHandler "finbot" sampleStore)
      [press "income", say "12.5", say "/cancel", press "expense", say "40"]
      = some (Float64.ofNat 40) ∧
    ∃ a, (run memRepo (NewBotHandler "finbot" sampleStore)
        [press "income", say "12.5", say "/cancel", press "expense", say "40"]).userAmounts 7
        = some a ∧
      lastAccepted memRepo 7 (NewBotHandler "finbot" sampleStore)
        [press "income", say "12.5", say "/cancel", press "expense", say "40"] = some a ∧
      Float64.le a Float64.zero = false :=
  ⟨by decide, by decide,
   category_stage_has_accepted_amount memRepo "finbot" sampleStore
     [press "income", say "12.5", say "/cancel", press "expense", say "40"] 7
     (Or.inr (by decide))⟩

/-! ### Isolation of the chats -/

/-- C21. For every update and every chat `B` other than the chat the update is
addressed to, handling the update leaves the stage and the pending amount of `B`
as they were: the entries of `B` in both maps are unchanged, hence also what the
handler reads from them. -/
theorem per_chat_isolation {σ : Type} (repo : Repository σ) (h : BotHandler σ) (u : Update)
    (B : Int) (hB : B ≠ chatOf u) :
    (handleUpdate repo h u).userStates B = h.userStates B ∧
    (handleUpdate repo h u).userAmounts B = h.userAmounts B ∧
    (handleUpdate repo h u).stateOf B = h.stateOf B ∧
    (handleUpdate repo h u).amountOf B = h.amountOf B := by
  have key : (handleUpdate repo h u).userStates B = h.userStates B ∧
      (handleUpdate repo h u).userAmounts B = h.userAmounts B := by
    cases u with
    | callbackQuery cq requestErr =>
      simp only [chatOf] at hB
      rcases handleCallbackQuery_maps repo h cq requestErr B with
        ⟨h1, h2⟩ | ⟨hc, _⟩ | ⟨hc, _⟩ | ⟨hc, _⟩
      · exact ⟨h1, h2⟩
      · exact absurd hc hB
      · exact absurd hc hB
      · exact absurd hc hB
    | message msg =>
      simp only [chatOf] at hB
      rcases handleTransactionInput_maps repo h msg B with
        ⟨h1, h2, _⟩ | ⟨hc, _⟩ | ⟨hc, _⟩ | ⟨hc, _⟩
      · exact ⟨h1, h2⟩
      · exact absurd hc hB
      · exact absurd hc hB
      · exact absurd hc hB
  refine ⟨key.1, key.2, ?_, ?_⟩
  · simp [BotHandler.stateOf, key.1]
  · simp [BotHandler.amountOf, key.2]

/-- Witness for C21: chat 8 has 40 pending in stage `expense_category` while chat 7
cancels and while chat 7 presses "salary". -/
theorem per_chat_isolation_witness :
    (run memRepo sampleHandler [pressIn 8 "expense", sayIn 8 "40"]).userStates 8
      = some StateExpenseCategory ∧
    (run memRepo sampleHandler [pressIn 8 "expense", sayIn 8 "40"]).userAmounts 8
      = some (Float64.ofNat 40) ∧
    (handleUpdate memRepo (run memRepo sampleHandler [pressIn 8 "expense", sayIn 8 "40"])
      (say "/cancel")).userStates 8
      = (run memRepo sampleHandler [pressIn 8 "expense", sayIn 8 "40"]).userStates 8 ∧
    (handleUpdate memRepo (run memRepo sampleHandler [pressIn 8 "expense", sayIn 8 "40"])
      (press "salary")).userAmounts 8
      = (run memRepo sampleHandler [pressIn 8 "expense", sayIn 8 "40"]).userAmounts 8 :=
  ⟨by decide, by decide,
   (per_chat_isolation memRepo (run memRepo sampleHandler [pressIn 8 "expense", sayIn 8 "40"])
      (say "/cancel") 8 (by decide)).1,
   (per_chat_isolation memRepo (run memRepo sampleHandler [pressIn 8 "expense", sayIn 8 "40"])
      (press "salary") 8 (by decide)).2.1⟩

/-! ### Commands that do not end the processing -/

/-- The texts `/start`, `/menu` and `/options` are read as they are in every kind
of chat, whatever the name of the bot. -/
theorem inputText_command {σ : Type} (h : BotHandler σ) (msg : Message)
    (ht : msg.Text = "/start" ∨ msg.Text = "/menu" ∨ msg.Text = "/options") :
    inputText h msg = msg.Text := by
  unfold inputText
  split_ifs
  · rcases ht with ht | ht | ht
    · rw [ht]
      have hr : removeMention "/start" h.selfUserName = "/start" := by
        simp [removeMention, removeAllAux, List.isPrefixOf]
      rw [hr]
      decide
    · rw [ht]
      have hr : removeMention "/menu" h.selfUserName = "/menu" := by
        simp [removeMention, removeAllAux, List.isPrefixOf]
      rw [hr]
      decide
    · rw [ht]
      have hr : removeMention "/options" h.selfUserName = "/options" := by
        simp [removeMention, removeAllAux, List.isPrefixOf]
      rw [hr]
      decide
  · rfl

/-- C22. For a message whose text is `/start`, `/menu` or `/options`: the command
sends its response (the main menu for `/menu` and for a `/start` whose
registration succeeds, the option menu for `/options`, the registration error
message and a log line for a `/start` whose registration fails); if the chat is in
stage `waiting_income` or `waiting_expense` the handler goes on and sends the
re-prompt "Укажите корректную сумму." after the response; in every other stage
nothing is sent after the response; in both cases the two maps (stages and pending
amounts) are left as they were. -/
theorem command_then_reprompt {σ : Type} (repo : Repository σ) (h : BotHandler σ)
    (msg : Message)
    (ht : msg.Text = "/start" ∨ msg.Text = "/menu" ∨ msg.Text = "/options") :
    (msg.Text = "/menu" →
      (handleCommand repo h msg.Chat.ID msg.Text).out = h.out ++
        [Outbound.message msg.Chat.ID "Выберите действие:" mainMenuKeyboard]) ∧
    (msg.Text = "/options" →
      (handleCommand repo h msg.Chat.ID msg.Text).out = h.out ++
        [Outbound.message msg.Chat.ID "Выберите действие:" optionMenuKeyboard]) ∧
    (msg.Text = "/start" → (RegisterUser repo h.store msg.Chat.ID).2 = none →
      (handleCommand repo h msg.Chat.ID msg.Text).out = h.out ++
        [Outbound.message msg.Chat.ID "Выберите действие:" mainMenuKeyboard]) ∧
    (msg.Text = "/start" → ∀ e, (RegisterUser repo h.store msg.Chat.ID).2 = some e →
      (handleCommand repo h msg.Chat.ID msg.Text).out = h.out ++
        [Outbound.message msg.Chat.ID "Ошибка при регистрации, попробуйте позже." [],
         Outbound.log ("Ошибка регистрации пользователя: " ++ e.msg)]) ∧
    (h.stateOf msg.Chat.ID = StateWaitingIncome ∨ h.stateOf msg.Chat.ID = StateWaitingExpense →
      (handleTransactionInput repo h msg).out =
        (handleCommand repo h msg.Chat.ID msg.Text).out ++
          [Outbound.message msg.Chat.ID "Укажите корректную сумму." []]) ∧
    (¬ (h.stateOf msg.Chat.ID = StateWaitingIncome ∨
        h.stateOf msg.Chat.ID = StateWaitingExpense) →
      (handleTransactionInput repo h msg).out = (handleCommand repo h msg.Chat.ID msg.Text).out) ∧
    (handleTransactionInput repo h msg).userStates = h.userStates ∧
    (handleTransactionInput repo h msg).userAmounts = h.userAmounts := by
  have hin := inputText_command h msg ht
  have hcmd := handleCommand_maps repo h msg.Chat.ID msg.Text
  have hst : (handleCommand repo h msg.Chat.ID msg.Text).stateOf msg.Chat.ID
      = h.stateOf msg.Chat.ID := by
    simp [BotHandler.stateOf, hcmd.1]
  have hcancel : ¬ msg.Text = "/cancel" := by
    rcases ht with ht | ht | ht <;> rw [ht] <;> decide
  have hbad : ((ParseFloat (TrimSpace msg.Text)).2.isSome ||
      Float64.le (ParseFloat (TrimSpace msg.Text)).1 Float64.zero) = true := by
    rcases ht with ht | ht | ht <;> rw [ht] <;> decide
  refine ⟨?_, ?_, ?_, ?_, ?_, ?_, ?_, ?_⟩
  · intro hm
    simp [handleCommand, hm, sendMainMenu, BotHandler.send]
  · intro hm
    simp [handleCommand, hm, sendOptionMenu, BotHandler.send]
  · intro hm hok
    cases hr : RegisterUser repo h.store msg.Chat.ID with
    | mk s1 err =>
      rw [hr] at hok
      simp only at hok
      subst hok
      simp [handleCommand, hm, hr, sendMainMenu, BotHandler.send, BotHandler.call]
  · intro hm e he
    cases hr : RegisterUser repo h.store msg.Chat.ID with
    | mk s1 err =>
      rw [hr] at he
      simp only at he
      subst he
      simp [handleCommand, hm, hr, BotHandler.send, BotHandler.logErr, BotHandler.call]
  · intro hw
    simp only [handleTransactionInput, hin, hcancel, if_false, hst, hw, if_true, hbad]
    simp [BotHandler.send]
  · intro hw
    simp only [handleTransactionInput, hin, hcancel, if_false, hst, hw]
  · by_cases hw : h.stateOf msg.Chat.ID = StateWaitingIncome ∨
        h.stateOf msg.Chat.ID = StateWaitingExpense
    · simp only [handleTransactionInput, hin, hcancel, if_false, hst, hw, if_true, hbad]
      simp [BotHandler.send, hcmd.1]
    · simp only [handleTransactionInput, hin, hcancel, if_false, hst, hw]
      exact hcmd.1
  · by_cases hw : h.stateOf msg.Chat.ID = StateWaitingIncome ∨
        h.stateOf msg.Chat.ID = StateWaitingExpense
    · simp only [handleTransactionInput, hin, hcancel, if_false, hst, hw, if_true, hbad]
      simp [BotHandler.send, hcmd.2]
    · simp only [handleTransactionInput, hin, hcancel, if_false, hst, hw]
      exact hcmd.2

/-- Witness for C22: `/menu` in chat 7 in stage `waiting_income` (main menu, then
the re-prompt) and in stage `income_category` (main menu only). -/
theorem command_then_reprompt_witness :
    (run memRepo sampleHandler [press "income"]).stateOf 7 = StateWaitingIncome ∧
    (handleTransactionInput memRepo (run memRepo sampleHandler [press "income"])
      { Chat := { ID := 7 }, Text := "/menu" }).out =
      (run memRepo sampleHandler [press "income"]).out ++
        [Outbound.message 7 "Выберите действие:" mainMenuKeyboard,
         Outbound.message 7 "Укажите корректную сумму." []] ∧
    (handleTransactionInput memRepo (run memRepo sampleHandler [press "income"])
      { Chat := { ID := 7 }, Text := "/menu" }).userStates
      = (run memRepo sampleHandler [press "income"]).userStates ∧
    (run memRepo sampleHandler [press "income", say "12.5"]).stateOf 7 = StateIncomeCategory ∧
    (handleTransactionInput memRepo (run memRepo sampleHandler [press "income", say "12.5"])
      { Chat := { ID := 7 }, Text := "/menu" }).out =
      (handleCommand memRepo (run memRepo sampleHandler [press "income", say "12.5"]) 7
        "/menu").out :=
  ⟨by decide, by decide,
   (command_then_reprompt memRepo (run memRepo sampleHandler [press "income"])
      { Chat := { ID := 7 }, Text := "/menu" } (Or.inr (Or.inl rfl))).2.2.2.2.2.2.1,
   by decide,
   (command_then_reprompt memRepo (run memRepo sampleHandler [press "income", say "12.5"])
      { Chat := { ID := 7 }, Text := "/menu" } (Or.inr (Or.inl rfl))).2.2.2.2.2.1 (by decide)⟩

/-! ### Rows of other types in the report -/

/-- The rows of one counted type among `txs` are those among the counted rows. -/
theorem filter_type_counted (txs : List Transaction) :
    txs.filter (fun t => t.Type_ = "income")
      = (txs.filter counted).filter (fun t => t.Type_ = "income") ∧
    txs.filter (fun t => t.Type_ = "expense")
      = (txs.filter counted).filter (fun t => t.Type_ = "expense") := by
  constructor
  · rw [List.filter_filter]
    congr 1
    funext t
    by_cases hi : t.Type_ = "income" <;> simp [counted, hi]
  · rw [List.filter_filter]
    congr 1
    funext t
    by_cases he : t.Type_ = "expense" <;> simp [counted, he]

/-- The loop of `GetReport` gives the same two sums on a list and on its counted
rows. -/
theorem foldl_reportStep_counted (txs : List Transaction) :
    txs.foldl reportStep (Float64.zero, Float64.zero)
      = (txs.filter counted).foldl reportStep (Float64.zero, Float64.zero) := by
  rw [foldl_reportStep, foldl_reportStep (txs.filter counted)]
  rw [← (filter_type_counted txs).1, ← (filter_type_counted txs).2]

/-- C23. `GetReport` counts only the rows whose type is exactly "income" or
"expense": when the lists of rows of a registered user in two stores have the same
counted rows in the same order (one is the other with rows of other types added
or removed), the two sums computed by the loop are the same, the income total,
the expense total and the balance are the same, and the report texts are equal;
adding one row of another type anywhere in a list is such a change. -/
theorem report_ignores_other_types {σ : Type} (repo : Repository σ) (s1 s2 : σ)
    (chatID : Int) (u1 u2 : User) (txs1 txs2 : List Transaction)
    (hu1 : repo.GetUserByChatID s1 chatID = (some u1, none))
    (ht1 : repo.GetTransactions s1 u1.ID = (txs1, none))
    (hu2 : repo.GetUserByChatID s2 chatID = (some u2, none))
    (ht2 : repo.GetTransactions s2 u2.ID = (txs2, none))
    (hsame : txs1.filter counted = txs2.filter counted) :
    txs1.foldl reportStep (Float64.zero, Float64.zero)
      = txs2.foldl reportStep (Float64.zero, Float64.zero) ∧
    totalOf "income" txs1 = totalOf "income" txs2 ∧
    totalOf "expense" txs1 = totalOf "expense" txs2 ∧
    Float64.sub (totalOf "income" txs1) (totalOf "expense" txs1)
      = Float64.sub (totalOf "income" txs2) (totalOf "expense" txs2) ∧
    GetReport repo s1 chatID = GetReport repo s2 chatID ∧
    (∀ (pre post : List Transaction) (t : Transaction), counted t = false →
      (pre ++ t :: post).filter counted = (pre ++ post).filter counted) := by
  have hloop : txs1.foldl reportStep (Float64.zero, Float64.zero)
      = txs2.foldl reportStep (Float64.zero, Float64.zero) := by
    rw [foldl_reportStep_counted txs1, foldl_reportStep_counted txs2, hsame]
  have hI : totalOf "income" txs1 = totalOf "income" txs2 := by
    unfold totalOf
    rw [(filter_type_counted txs1).1, (filter_type_counted txs2).1, hsame]
  have hE : totalOf "expense" txs1 = totalOf "expense" txs2 := by
    unfold totalOf
    rw [(filter_type_counted txs1).2, (filter_type_counted txs2).2, hsame]
  refine ⟨hloop, hI, hE, by rw [hI, hE], ?_, ?_⟩
  · simp only [GetReport, hu1, ht1, hu2, ht2, hloop]
  · intro pre post t hc
    simp [List.filter_append, List.filter_cons, hc]

/-- Witness for C23: the report of chat 7 over `mixedStore`, which holds a
"transfer" row of 500 and an "Income" row of 7 besides the income of 100 and the
expense of 40, is the report over `twoUserStore`. -/
theorem report_ignores_other_types_witness :
    (memRepo.GetTransactions mixedStore 1).1.length = 4 ∧
    (memRepo.GetTransactions twoUserStore 1).1.length = 2 ∧
    GetReport memRepo mixedStore 7 = GetReport memRepo twoUserStore 7 ∧
    GetReport memRepo mixedStore 7 = ("Доходы: 100.00\nРасходы: 40.00\nБаланс: 60.00", none) :=
  ⟨by decide, by decide,
   (report_ignores_other_types memRepo mixedStore twoUserStore 7
      { ID := 1, ChatID := 7 } { ID := 1, ChatID := 7 }
      (memRepo.GetTransactions mixedStore 1).1 (memRepo.GetTransactions twoUserStore 1).1
      (by decide) (by decide) (by decide) (by decide) (by decide)).2.2.2.2.1,
   by decide⟩

end Finuchet
